import Mathlib

/-!
# nri-vsphere: datastore sample builder and configuration gates

A shallow embedding of `internal/config/config.go` (the configuration
predicates) and `internal/process/datastores.go` (`createDatastoreSamples`).

`createDatastoreSamples` is an effectful loop: it calls into the SDK
(`createNewEntityWithMetricSet`, `SetMetric`), into the tag collector and into
the datacenter's performance cache, and it writes to the logger.  The embedding
threads the ordered list of these effects (a `Trace`) through the loops, one
`Event` per call, in program order.

Code of the repository that `createDatastoreSamples` calls but that is not part
of the two source files (`sanitizeEntityName`, `createNewEntityWithMetricSet`,
the string constants, the outcome of `SetMetric`) is taken as a parameter:
the record `Env` and the outcome function handed to `SetMetric`.
-/

set_option autoImplicit false

namespace NriVsphere

/-! ## Data model -/

/-- The vSphere managed object reference (`types.ManagedObjectReference`). -/
structure Ref where
  Type_ : String
  Value : String
deriving DecidableEq, Repr

/-- The sample type of the SDK (`metric.GAUGE`, `metric.ATTRIBUTE`). -/
inductive SourceType
  | GAUGE
  | ATTRIBUTE
deriving DecidableEq, Repr

/-- The value handed to `SetMetric`.  `gib n` stands for the Go expression
`float64(n)/(1<<30)`; the floating point quotient is kept symbolic. -/
inductive MetricValue
  | str (s : String)
  | int (n : Int)
  | gib (bytes : Int)
deriving DecidableEq, Repr

/-- One entry of `dc.GetPerfMetrics(ref)`: counter name, aggregate value and the
per-instance values.  `InstanceValues` is a Go map; it is modelled by the list
of its entries in the order in which `range` visits them. -/
structure PerfMetric where
  Counter : String
  Value : Int
  InstanceValues : List (String × Int)
deriving DecidableEq, Repr

/-- The NAS volume description (`types.HostNasVolume`), the two fields read. -/
structure HostNasVolume where
  RemoteHost : String
  RemotePath : String
deriving DecidableEq, Repr

/-- The dynamic type of `ds.Info`: `*types.NasDatastoreInfo` (whose `Nas` pointer
may be nil) or any other datastore info type. -/
inductive DatastoreInfo
  | NasDatastoreInfo (Nas : Option HostNasVolume)
  | other
deriving DecidableEq, Repr

/-- The fields of `ds.Summary` that are read. -/
structure DatastoreSummary where
  Name : String
  Url : String
  Type_ : String
  Accessible : Bool
  Capacity : Int
  FreeSpace : Int
  Uncommitted : Int
deriving DecidableEq, Repr

/-- The datastore managed object (`mo.Datastore`), the fields that are read. -/
structure Datastore where
  Self : Ref
  Summary : DatastoreSummary
  OverallStatus : String
  Vm : List Ref
  Host : List Ref
  Info : DatastoreInfo
deriving DecidableEq, Repr

/-- The datacenter of the model package: its name (`dc.Datacenter.Name`), its
datastores and the method `GetPerfMetrics`. -/
structure Datacenter where
  Name : String
  Datastores : List Datastore
  GetPerfMetrics : Ref → List PerfMetric

/-- The tag collector (`tag.Collector`), the two methods that are called.
`GetTagsByCategories` returns a Go map, modelled by its entries in `range`
order. -/
structure TagCollector where
  MatchObjectTags : Ref → Bool
  GetTagsByCategories : Ref → List (String × String)

/-- The command line arguments, with their declared defaults. -/
structure ArgumentList where
  Local : Bool := true
  Entity : String := ""
  URL : String := ""
  User : String := ""
  Pass : String := ""
  DatacenterLocation : String := ""
  EnableVsphereEvents : Bool := false
  EventsPageSize : String := "100"
  EnableVspherePerfMetrics : Bool := false
  PerfLevel : Int := 1
  LogAvailableCounters : Bool := false
  PerfMetricFile : String := ""
  ConsiderInstances : Bool := false
  BatchSizePerfEntities : String := "50"
  BatchSizePerfMetrics : String := "50"
  EnableVsphereTags : Bool := false
  EnableVsphereSnapshots : Bool := false
  ValidateSSL : Bool := false
  ShowVersion : Bool := false
  IncludeTags : String := ""
deriving DecidableEq, Repr

/-- The configuration record, without the SDK and client handles. -/
structure Config where
  Args : ArgumentList
  Hostname : String
  IntegrationName : String
  IntegrationNameShort : String
  IntegrationVersion : String
  TagCollector : TagCollector
  Datacenters : List Datacenter
  IsVcenterAPIType : Bool

namespace Config

/-- Tags are collected when connected to a vCenter and the flag is set. -/
def TagCollectionEnabled (c : Config) : Bool :=
  c.IsVcenterAPIType && c.Args.EnableVsphereTags

/-- Events are collected when connected to a vCenter and the flag is set. -/
def EventCollectionEnabled (c : Config) : Bool :=
  c.IsVcenterAPIType && c.Args.EnableVsphereEvents

/-- Tag filtering: tag collection is on and the raw argument is a non-empty
string (`len(c.Args.IncludeTags) > 0`; the Go length counts bytes, and a string
has a positive number of bytes exactly when it has a positive number of
characters). -/
def TagFilteringEnabled (c : Config) : Bool :=
  c.TagCollectionEnabled && decide (0 < c.Args.IncludeTags.length)

/-- Performance metrics are collected when the flag is set. -/
def PerfMetricsCollectionEnabled (c : Config) : Bool :=
  c.Args.EnableVspherePerfMetrics

/-- Instances are considered separately when the flag is set. -/
def ConsiderInstancesEnabled (c : Config) : Bool :=
  c.Args.ConsiderInstances

end Config

/-! ## Effects -/

/-- The variable a metric set is bound to in `createDatastoreSamples`: `ms`, the
aggregate metric set of the datastore (line 30), or `ims`, the metric set of
an instance (line 83). -/
inductive MetricSetVar
  | ms
  | ims
deriving DecidableEq, Repr

/-- One effect of `createDatastoreSamples`.

* `createNewEntityWithMetricSet v kind name id failed`: the call whose metric
  set is bound to `v`, with its three string arguments and whether it returned
  an error;
* `logCreateFailure v name id`: the `"failed to create metricSet"` log line
  after the failing call bound to `v`;
* `setMetric v key value ty`: the call `v.SetMetric(key, value, ty)`; the metric
  set written is the one of the latest successful creation bound to `v`;
* `checkErrorLog`: the log line of `checkError` for the `SetMetric` call that
  precedes it;
* `addTagsToInventory k v`: the call on the entity of `ms`;
* `getPerfMetrics dc ref`: the call `dc.GetPerfMetrics(ref)`. -/
inductive Event
  | createNewEntityWithMetricSet (v : MetricSetVar) (typeEntity entityName uniqueIdentifier : String) (failed : Bool)
  | logCreateFailure (v : MetricSetVar) (datastoreName dataStoreID : String)
  | setMetric (v : MetricSetVar) (key : String) (value : MetricValue) (sourceType : SourceType)
  | checkErrorLog
  | addTagsToInventory (k v : String)
  | getPerfMetrics (datacenter : String) (ref : Ref)
deriving DecidableEq, Repr

/-- The effects of a run, oldest first. -/
abbrev Trace := List Event

/-- The parts of the `process` package that `createDatastoreSamples` uses and
that are defined outside the two source files: four string constants,
`sanitizeEntityName`, and whether `createNewEntityWithMetricSet` returns an
error for given arguments. -/
structure Env where
  entityTypeDatastore : String
  entityTypeHost : String
  perfMetricPrefix : String
  tagsPrefix : String
  sanitizeEntityName : Config → String → String → String
  createNewEntityWithMetricSet : Config → String → String → String → Bool

/-- Is the event a `SetMetric` call? -/
def isSetMetric : Event → Bool
  | .setMetric _ _ _ _ => true
  | _ => false

/-- The call `v.SetMetric(key, value, ty)`: it is recorded, and its error result
is `setMetricErr n` where `n` is the number of `SetMetric` calls made before
it, so that any subset of the calls of a run can be made to fail. -/
def SetMetric (setMetricErr : Nat → Bool) (t : Trace) (v : MetricSetVar) (key : String)
    (value : MetricValue) (ty : SourceType) : Trace × Bool :=
  (t ++ [.setMetric v key value ty], setMetricErr (t.countP isSetMetric))

/-- Modelled from the spec: `checkError(logger, err)` of the `process` package,
which is not in the source files; a call that fails "is logged and swallowed":
a non-nil error is logged and the function returns. -/
def checkError (r : Trace × Bool) : Trace :=
  if r.2 then r.1 ++ [.checkErrorLog] else r.1

/-- The Go formatting `fmt.Sprintf("%t", b)`. -/
def sprintfBool (b : Bool) : String :=
  if b then "true" else "false"

/-- The kind handed to `createNewEntityWithMetricSet` for an instance (line 83). -/
def instanceEntityType (env : Env) : String :=
  env.entityTypeHost ++ "Instance"

/-! ## `createDatastoreSamples` -/

/-- The body of `for key, val := range perfMetric.InstanceValues` (lines 83-98). -/
def instanceBody (env : Env) (setMetricErr : Nat → Bool) (config : Config)
    (datacenterName entityName dataStoreID : String) (perfMetric : PerfMetric)
    (t : Trace) (kv : String × Int) : Trace :=
  let err := env.createNewEntityWithMetricSet config (instanceEntityType env) entityName dataStoreID
  let t := t ++ [.createNewEntityWithMetricSet .ims (instanceEntityType env) entityName dataStoreID err]
  if err then
    t ++ [.logCreateFailure .ims entityName dataStoreID]
  else
    let t := checkError (SetMetric setMetricErr t .ims "dataStoreID" (.str dataStoreID) .ATTRIBUTE)
    let t := checkError (SetMetric setMetricErr t .ims "datacenterLocation" (.str config.Args.DatacenterLocation) .ATTRIBUTE)
    let t := checkError (SetMetric setMetricErr t .ims "datacenterName" (.str datacenterName) .ATTRIBUTE)
    let t := checkError (SetMetric setMetricErr t .ims "instanceName" (.str kv.1) .ATTRIBUTE)
    checkError (SetMetric setMetricErr t .ims (env.perfMetricPrefix ++ perfMetric.Counter) (.int kv.2) .GAUGE)

/-- The body of `for _, perfMetric := range perfMetrics` (lines 78-100). -/
def perfMetricBody (env : Env) (setMetricErr : Nat → Bool) (config : Config)
    (datacenterName entityName dataStoreID : String)
    (t : Trace) (perfMetric : PerfMetric) : Trace :=
  let t := checkError (SetMetric setMetricErr t .ms (env.perfMetricPrefix ++ perfMetric.Counter) (.int perfMetric.Value) .GAUGE)
  if config.ConsiderInstancesEnabled then
    perfMetric.InstanceValues.foldl
      (instanceBody env setMetricErr config datacenterName entityName dataStoreID perfMetric) t
  else t

/-- The body of `for k, v := range tagsByCategory` (lines 67-69). -/
def tagBody (env : Env) (setMetricErr : Nat → Bool) (t : Trace) (kv : String × String) : Trace :=
  let t := checkError (SetMetric setMetricErr t .ms (env.tagsPrefix ++ kv.1) (.str kv.2) .ATTRIBUTE)
  t ++ [.addTagsToInventory kv.1 kv.2]

/-- The type switch on `ds.Info` (lines 55-61). -/
def infoBlock (setMetricErr : Nat → Bool) (t : Trace) (info : DatastoreInfo) : Trace :=
  match info with
  | .NasDatastoreInfo (some nas) =>
    let t := checkError (SetMetric setMetricErr t .ms "nas.remoteHost" (.str nas.RemoteHost) .ATTRIBUTE)
    checkError (SetMetric setMetricErr t .ms "nas.remotePath" (.str nas.RemotePath) .ATTRIBUTE)
  | .NasDatastoreInfo none => t
  | .other => t

/-- The body of `for _, ds := range dc.Datastores` (lines 19-102). -/
def datastoreBody (env : Env) (setMetricErr : Nat → Bool) (config : Config) (dc : Datacenter)
    (t : Trace) (ds : Datastore) : Trace :=
  if config.TagFilteringEnabled && !config.TagCollector.MatchObjectTags ds.Self then
    t
  else
    let datacenterName := dc.Name
    let entityName := env.sanitizeEntityName config ds.Summary.Name datacenterName
    let dataStoreID := ds.Summary.Url
    let err := env.createNewEntityWithMetricSet config env.entityTypeDatastore entityName dataStoreID
    let t := t ++ [.createNewEntityWithMetricSet .ms env.entityTypeDatastore entityName dataStoreID err]
    if err then
      t ++ [.logCreateFailure .ms entityName dataStoreID]
    else
      let t := if config.Args.DatacenterLocation != "" then
          checkError (SetMetric setMetricErr t .ms "datacenterLocation" (.str config.Args.DatacenterLocation) .ATTRIBUTE)
        else t
      let t := if config.IsVcenterAPIType then
          checkError (SetMetric setMetricErr t .ms "datacenterName" (.str datacenterName) .ATTRIBUTE)
        else t
      let t := checkError (SetMetric setMetricErr t .ms "name" (.str ds.Summary.Name) .ATTRIBUTE)
      let t := checkError (SetMetric setMetricErr t .ms "fileSystemType" (.str ds.Summary.Type_) .ATTRIBUTE)
      let t := checkError (SetMetric setMetricErr t .ms "overallStatus" (.str ds.OverallStatus) .ATTRIBUTE)
      let t := checkError (SetMetric setMetricErr t .ms "accessible" (.str (sprintfBool ds.Summary.Accessible)) .ATTRIBUTE)
      let t := checkError (SetMetric setMetricErr t .ms "vmCount" (.int ds.Vm.length) .GAUGE)
      let t := checkError (SetMetric setMetricErr t .ms "hostCount" (.int ds.Host.length) .GAUGE)
      let t := checkError (SetMetric setMetricErr t .ms "url" (.str ds.Summary.Url) .ATTRIBUTE)
      let t := checkError (SetMetric setMetricErr t .ms "capacity" (.gib ds.Summary.Capacity) .GAUGE)
      let t := checkError (SetMetric setMetricErr t .ms "freeSpace" (.gib ds.Summary.FreeSpace) .GAUGE)
      let t := checkError (SetMetric setMetricErr t .ms "uncommitted" (.gib ds.Summary.Uncommitted) .GAUGE)
      let t := infoBlock setMetricErr t ds.Info
      let t := if config.TagCollectionEnabled then
          (config.TagCollector.GetTagsByCategories ds.Self).foldl (tagBody env setMetricErr) t
        else t
      if config.PerfMetricsCollectionEnabled then
        let perfMetrics := dc.GetPerfMetrics ds.Self
        let t := t ++ [.getPerfMetrics dc.Name ds.Self]
        perfMetrics.foldl
          (perfMetricBody env setMetricErr config datacenterName entityName dataStoreID) t
      else t

/-- The body of `for _, dc := range config.Datacenters`. -/
def datacenterBody (env : Env) (setMetricErr : Nat → Bool) (config : Config)
    (t : Trace) (dc : Datacenter) : Trace :=
  dc.Datastores.foldl (datastoreBody env setMetricErr config dc) t

/-- The effects of `createDatastoreSamples(config)`, in program order. -/
def createDatastoreSamples (env : Env) (setMetricErr : Nat → Bool) (config : Config) : Trace :=
  config.Datacenters.foldl (datacenterBody env setMetricErr config) []

/-! ## The inclusion filter's parser -/

/-- Modelled from the spec: the "splitting on whitespace" of the parser of the
inclusion filter (4.2): the whitespace-separated fields of a string; `cur` is
the field being read, last character first. -/
def fieldsGo (cur : List Char) : List Char → List (List Char)
  | [] => if cur.isEmpty then [] else [cur.reverse]
  | c :: cs =>
    if c.isWhitespace then
      (if cur.isEmpty then fieldsGo [] cs else cur.reverse :: fieldsGo [] cs)
    else fieldsGo (c :: cur) cs

/-- Modelled from the spec: one `category=value` entry of the inclusion filter
(4.2), split at its first `=`; `none` for a malformed entry ("missing `=`, empty
category or value"). -/
def parseEntry (field : List Char) : Option (String × String) :=
  match field.dropWhile (fun c => c != '=') with
  | [] => none
  | _ :: value =>
    let category := field.takeWhile (fun c => c != '=')
    if category.isEmpty || value.isEmpty then none else some (String.mk category, String.mk value)

/-- Modelled from the spec: the parser of the inclusion filter, which is in the
tag package and not in the source files.  The spec (4.2): the filter is
"constructed once from the raw configuration string by splitting on whitespace
and `=`; malformed entries (missing `=`, empty category or value) are
skipped". -/
def parseIncludeTags (includeTags : String) : List (String × String) :=
  (fieldsGo [] includeTags.data).filterMap parseEntry

/-- The configuration with another value of `Args.IncludeTags`. -/
def withIncludeTags (c : Config) (includeTags : String) : Config :=
  { c with Args := { c.Args with IncludeTags := includeTags } }

/-- The configuration with another value of `Args.ConsiderInstances`. -/
def withConsiderInstances (c : Config) (b : Bool) : Config :=
  { c with Args := { c.Args with ConsiderInstances := b } }

/-- The configuration with other datacenters. -/
def withDatacenters (c : Config) (dcs : List Datacenter) : Config :=
  { c with Datacenters := dcs }

/-! ## A worked example

One datacenter with three datastores: `A` with one performance sample of
aggregate value 42 and instances `lun1`, `lun2`; `B`, whose URL is empty and
whose entity creation is rejected; and `C`, without performance data. -/

/-- The constants and helpers of the example: entities without an identifier
are rejected. -/
def exampleEnv : Env where
  entityTypeDatastore := "datastore"
  entityTypeHost := "host"
  perfMetricPrefix := "perf."
  tagsPrefix := "label."
  sanitizeEntityName := fun _ name dc => dc ++ ":" ++ name
  createNewEntityWithMetricSet := fun _ _ _ uniqueIdentifier => uniqueIdentifier == ""

/-- Datastore `A`. -/
def datastoreA : Datastore where
  Self := ⟨"Datastore", "datastore-1"⟩
  Summary := ⟨"A", "ds:///a", "VMFS", true, 0, 0, 0⟩
  OverallStatus := "green"
  Vm := []
  Host := []
  Info := .other

/-- Datastore `B`, without URL. -/
def datastoreB : Datastore where
  Self := ⟨"Datastore", "datastore-2"⟩
  Summary := ⟨"B", "", "VMFS", true, 0, 0, 0⟩
  OverallStatus := "green"
  Vm := []
  Host := []
  Info := .other

/-- Datastore `C`, a NAS datastore. -/
def datastoreC : Datastore where
  Self := ⟨"Datastore", "datastore-3"⟩
  Summary := ⟨"C", "ds:///c", "NFS", false, 0, 0, 0⟩
  OverallStatus := "red"
  Vm := []
  Host := []
  Info := .NasDatastoreInfo (some ⟨"filer", "/export"⟩)

/-- The performance sample of the example: aggregate 42, instances 10 and 32. -/
def exampleSample : PerfMetric where
  Counter := "disk.used.latest"
  Value := 42
  InstanceValues := [("lun1", 10), ("lun2", 32)]

/-- The datacenter of the example. -/
def exampleDatacenter : Datacenter where
  Name := "dc1"
  Datastores := [datastoreA, datastoreB, datastoreC]
  GetPerfMetrics := fun ref => if ref.Value == "datastore-1" then [exampleSample] else []

/-- The tag collector of the example: only `A` carries a matching tag. -/
def exampleTagCollector : TagCollector where
  MatchObjectTags := fun ref => ref.Value == "datastore-1"
  GetTagsByCategories := fun ref => if ref.Value == "datastore-1" then [("env", "prod")] else []

/-- The configuration of the example, for given arguments and API type. -/
def exampleConfig (args : ArgumentList) (isVcenter : Bool) : Config where
  Args := args
  Hostname := "localhost"
  IntegrationName := "com.newrelic.vsphere"
  IntegrationNameShort := "vsphere"
  IntegrationVersion := "0.0.0"
  TagCollector := exampleTagCollector
  Datacenters := [exampleDatacenter]
  IsVcenterAPIType := isVcenter

/-- Performance metrics and instances enabled, no vCenter. -/
def instancesConfig : Config :=
  exampleConfig { EnableVspherePerfMetrics := true, ConsiderInstances := true } false

/-! ## The performance batcher -/

/-- Modelled from the spec: the "consecutive chunks" of the performance batcher
(4.3), at most `size` elements each, by recursion on `fuel`. -/
def chunksAux {α : Type} (size : Nat) : Nat → List α → List (List α)
  | 0, _ => []
  | _ + 1, [] => []
  | fuel + 1, a :: l => (a :: l).take size :: chunksAux size fuel ((a :: l).drop size)

/-- Modelled from the spec: steps 1 and 2 of the performance batcher (4.3), which
is in the performance package and not in the source files: "partition the
requested object-reference list into consecutive chunks of size ≤
maxEntitiesPerBatch (stable order, no reordering)", and the same for the
counters. -/
def chunks {α : Type} (size : Nat) (l : List α) : List (List α) :=
  chunksAux size l.length l

/-- Modelled from the spec: step 3 of the performance batcher (4.3): "for every
(entity-chunk, counter-chunk) pair, issue one query to the underlying
performance service scoped to exactly that pair".  A query is the pair of its
objects and its counters. -/
def batchQueries (maxEntitiesPerBatch maxCountersPerBatch : Nat) (objects : List Ref)
    (counters : List String) : List (List Ref × List String) :=
  (chunks maxEntitiesPerBatch objects).flatMap
    (fun os => (chunks maxCountersPerBatch counters).map (fun cs => (os, cs)))

/-- Modelled from the spec: the performance service (6), `Query(objectRefs,
counters)`: the samples that the service has for the requested pairs, each with
its (object, counter) key; `service o c = none` when it has no sample for the
pair ("that pair is simply absent from the result"). -/
def runQuery (service : Ref → String → Option PerfMetric) (q : List Ref × List String) :
    List ((Ref × String) × PerfMetric) :=
  q.1.flatMap (fun o => q.2.filterMap (fun c => (service o c).map (fun s => ((o, c), s))))

/-- Modelled from the spec: step 4 of the performance batcher (4.3): "merge all
query results into a single table keyed by (Object Reference, Counter)"; the
table is the list of its entries, in the order of the queries. -/
def getMetrics (service : Ref → String → Option PerfMetric)
    (maxEntitiesPerBatch maxCountersPerBatch : Nat) (objects : List Ref)
    (counters : List String) : List ((Ref × String) × PerfMetric) :=
  (batchQueries maxEntitiesPerBatch maxCountersPerBatch objects counters).flatMap
    (runQuery service)

/-- The quotient rounded up. -/
def ceilDiv (a b : Nat) : Nat :=
  (a + b - 1) / b

/-- The objects of the batching example of the spec. -/
def exampleObjects : List Ref :=
  [⟨"Datastore", "A"⟩, ⟨"Datastore", "B"⟩, ⟨"Datastore", "C"⟩, ⟨"Datastore", "D"⟩,
   ⟨"Datastore", "E"⟩]

/-- The counters of the batching example of the spec. -/
def exampleCounters : List String :=
  ["c1", "c2", "c3"]

/-- A service for the example: it has a sample for every pair but `(C, c2)`. -/
def exampleService (o : Ref) (c : String) : Option PerfMetric :=
  if o.Value == "C" && c == "c2" then none else some ⟨c, 1, []⟩

/-! ## The calls of a run

`createDatastoreSamples` never branches on the result of `SetMetric`, so apart
from the `checkError` log lines the trace is a function of the configuration
alone.  `expectedCalls` spells this function out, loop by loop;
`noLog_createDatastoreSamples` proves that it is what the program does. -/

/-- Is the event the log line of `checkError`? -/
def isCheckErrorLog : Event → Bool
  | .checkErrorLog => true
  | _ => false

/-- The trace without the log lines of `checkError`. -/
def noLog (t : Trace) : Trace :=
  t.filter (fun e => !isCheckErrorLog e)

/-- The five writes on the metric set of an instance (lines 91-97). -/
def instanceWrites (env : Env) (config : Config) (datacenterName dataStoreID : String)
    (perfMetric : PerfMetric) (kv : String × Int) : List Event :=
  [.setMetric .ims "dataStoreID" (.str dataStoreID) .ATTRIBUTE,
   .setMetric .ims "datacenterLocation" (.str config.Args.DatacenterLocation) .ATTRIBUTE,
   .setMetric .ims "datacenterName" (.str datacenterName) .ATTRIBUTE,
   .setMetric .ims "instanceName" (.str kv.1) .ATTRIBUTE,
   .setMetric .ims (env.perfMetricPrefix ++ perfMetric.Counter) (.int kv.2) .GAUGE]

/-- The calls of one iteration of the instance loop. -/
def instanceCalls (env : Env) (config : Config) (datacenterName entityName dataStoreID : String)
    (perfMetric : PerfMetric) (kv : String × Int) : List Event :=
  if env.createNewEntityWithMetricSet config (instanceEntityType env) entityName dataStoreID then
    [.createNewEntityWithMetricSet .ims (instanceEntityType env) entityName dataStoreID true,
     .logCreateFailure .ims entityName dataStoreID]
  else
    .createNewEntityWithMetricSet .ims (instanceEntityType env) entityName dataStoreID false ::
      instanceWrites env config datacenterName dataStoreID perfMetric kv

/-- The calls of one iteration of the performance metric loop. -/
def perfMetricCalls (env : Env) (config : Config) (datacenterName entityName dataStoreID : String)
    (perfMetric : PerfMetric) : List Event :=
  .setMetric .ms (env.perfMetricPrefix ++ perfMetric.Counter) (.int perfMetric.Value) .GAUGE ::
    (if config.ConsiderInstancesEnabled then
      perfMetric.InstanceValues.flatMap
        (instanceCalls env config datacenterName entityName dataStoreID perfMetric)
    else [])

/-- The calls of one iteration of the tag loop. -/
def tagCalls (env : Env) (kv : String × String) : List Event :=
  [.setMetric .ms (env.tagsPrefix ++ kv.1) (.str kv.2) .ATTRIBUTE, .addTagsToInventory kv.1 kv.2]

/-- The calls of the type switch on `ds.Info`. -/
def infoCalls : DatastoreInfo → List Event
  | .NasDatastoreInfo (some nas) =>
    [.setMetric .ms "nas.remoteHost" (.str nas.RemoteHost) .ATTRIBUTE,
     .setMetric .ms "nas.remotePath" (.str nas.RemotePath) .ATTRIBUTE]
  | .NasDatastoreInfo none => []
  | .other => []

/-- The writes on the aggregate metric set of a datastore and what follows them
(lines 36-102), for a datastore whose entity was created. -/
def datastoreWrites (env : Env) (config : Config) (dc : Datacenter) (ds : Datastore) : List Event :=
  (if config.Args.DatacenterLocation != "" then
      [Event.setMetric .ms "datacenterLocation" (.str config.Args.DatacenterLocation) .ATTRIBUTE]
    else []) ++
  (if config.IsVcenterAPIType then
      [Event.setMetric .ms "datacenterName" (.str dc.Name) .ATTRIBUTE]
    else []) ++
  [.setMetric .ms "name" (.str ds.Summary.Name) .ATTRIBUTE,
   .setMetric .ms "fileSystemType" (.str ds.Summary.Type_) .ATTRIBUTE,
   .setMetric .ms "overallStatus" (.str ds.OverallStatus) .ATTRIBUTE,
   .setMetric .ms "accessible" (.str (sprintfBool ds.Summary.Accessible)) .ATTRIBUTE,
   .setMetric .ms "vmCount" (.int ds.Vm.length) .GAUGE,
   .setMetric .ms "hostCount" (.int ds.Host.length) .GAUGE,
   .setMetric .ms "url" (.str ds.Summary.Url) .ATTRIBUTE,
   .setMetric .ms "capacity" (.gib ds.Summary.Capacity) .GAUGE,
   .setMetric .ms "freeSpace" (.gib ds.Summary.FreeSpace) .GAUGE,
   .setMetric .ms "uncommitted" (.gib ds.Summary.Uncommitted) .GAUGE] ++
  infoCalls ds.Info ++
  (if config.TagCollectionEnabled then
      (config.TagCollector.GetTagsByCategories ds.Self).flatMap (tagCalls env)
    else []) ++
  (if config.PerfMetricsCollectionEnabled then
      Event.getPerfMetrics dc.Name ds.Self ::
        (dc.GetPerfMetrics ds.Self).flatMap
          (perfMetricCalls env config dc.Name
            (env.sanitizeEntityName config ds.Summary.Name dc.Name) ds.Summary.Url)
    else [])

/-- Does the tag filter let the datastore through (line 20)? -/
def included (config : Config) (ds : Datastore) : Bool :=
  !config.TagFilteringEnabled || config.TagCollector.MatchObjectTags ds.Self

/-- Does the creation of the aggregate entity of the datastore fail (line 30)? -/
def aggregateFails (env : Env) (config : Config) (dc : Datacenter) (ds : Datastore) : Bool :=
  env.createNewEntityWithMetricSet config env.entityTypeDatastore
    (env.sanitizeEntityName config ds.Summary.Name dc.Name) ds.Summary.Url

/-- The call that creates the aggregate entity of a datastore (line 30). -/
def aggregateCreate (env : Env) (config : Config) (dc : Datacenter) (ds : Datastore) : Event :=
  .createNewEntityWithMetricSet .ms env.entityTypeDatastore
    (env.sanitizeEntityName config ds.Summary.Name dc.Name) ds.Summary.Url
    (aggregateFails env config dc ds)

/-- The calls of one iteration of the datastore loop. -/
def datastoreCalls (env : Env) (config : Config) (dc : Datacenter) (ds : Datastore) : List Event :=
  if included config ds then
    aggregateCreate env config dc ds ::
      (if aggregateFails env config dc ds then
        [.logCreateFailure .ms (env.sanitizeEntityName config ds.Summary.Name dc.Name) ds.Summary.Url]
      else datastoreWrites env config dc ds)
  else []

/-- The calls of a run over the datacenters `dcs`. -/
def callsOver (env : Env) (config : Config) (dcs : List Datacenter) : List Event :=
  dcs.flatMap (fun dc => dc.Datastores.flatMap (datastoreCalls env config dc))

/-- The calls of `createDatastoreSamples(config)`. -/
def expectedCalls (env : Env) (config : Config) : List Event :=
  callsOver env config config.Datacenters

/-! ## Projections of a trace -/

/-- The datastores of the configuration, each with its datacenter, in the order
in which the two nested loops visit them. -/
def allDatastores (dcs : List Datacenter) : List (Datacenter × Datastore) :=
  dcs.flatMap (fun dc => dc.Datastores.map (fun ds => (dc, ds)))

/-- Is the event a call of `createNewEntityWithMetricSet` bound to `v`? -/
def isCreate (v : MetricSetVar) : Event → Bool
  | .createNewEntityWithMetricSet w _ _ _ _ => decide (w = v)
  | _ => false

/-- Is the event one of the two that a datastore whose aggregate entity cannot
be created leaves in the trace: the failed creation call bound to `ms`, or the
log line that follows it? -/
def isAggregateFailure : Event → Bool
  | .createNewEntityWithMetricSet .ms _ _ _ true => true
  | .logCreateFailure .ms _ _ => true
  | _ => false

/-- The trace without the events of the datastores whose aggregate entity could
not be created. -/
def dropAggregateFailures (t : Trace) : Trace :=
  t.filter (fun e => !isAggregateFailure e)

/-- Is the datastore let through by the tag filter and then rejected by
`createNewEntityWithMetricSet` (line 30)? -/
def creationFails (env : Env) (config : Config) (dc : Datacenter) (ds : Datastore) : Bool :=
  included config ds && aggregateFails env config dc ds

/-- The datacenter without the datastores whose entity creation fails. -/
def withoutFailingIn (env : Env) (config : Config) (dc : Datacenter) : Datacenter :=
  { dc with Datastores := dc.Datastores.filter (fun ds => !creationFails env config dc ds) }

/-- The datacenters without the datastores whose entity creation fails. -/
def withoutFailing (env : Env) (config : Config) (dcs : List Datacenter) : List Datacenter :=
  dcs.map (withoutFailingIn env config)

/-- Is the event the creation of an aggregate entity or a metric write on an
aggregate metric set (the variable `ms`)? -/
def isAggregate : Event → Bool
  | .createNewEntityWithMetricSet .ms _ _ _ _ => true
  | .setMetric .ms _ _ _ => true
  | _ => false

/-- The metric writes on the aggregate metric set of a datastore whose entity
was created (lines 36-78): location, datacenter, the ten summary metrics, the
NAS attributes, one attribute per tag and one gauge per performance sample. -/
def aggregateWrites (env : Env) (config : Config) (dc : Datacenter) (ds : Datastore) : List Event :=
  (if config.Args.DatacenterLocation != "" then
      [Event.setMetric .ms "datacenterLocation" (.str config.Args.DatacenterLocation) .ATTRIBUTE]
    else []) ++
  (if config.IsVcenterAPIType then
      [Event.setMetric .ms "datacenterName" (.str dc.Name) .ATTRIBUTE]
    else []) ++
  [.setMetric .ms "name" (.str ds.Summary.Name) .ATTRIBUTE,
   .setMetric .ms "fileSystemType" (.str ds.Summary.Type_) .ATTRIBUTE,
   .setMetric .ms "overallStatus" (.str ds.OverallStatus) .ATTRIBUTE,
   .setMetric .ms "accessible" (.str (sprintfBool ds.Summary.Accessible)) .ATTRIBUTE,
   .setMetric .ms "vmCount" (.int ds.Vm.length) .GAUGE,
   .setMetric .ms "hostCount" (.int ds.Host.length) .GAUGE,
   .setMetric .ms "url" (.str ds.Summary.Url) .ATTRIBUTE,
   .setMetric .ms "capacity" (.gib ds.Summary.Capacity) .GAUGE,
   .setMetric .ms "freeSpace" (.gib ds.Summary.FreeSpace) .GAUGE,
   .setMetric .ms "uncommitted" (.gib ds.Summary.Uncommitted) .GAUGE] ++
  infoCalls ds.Info ++
  (if config.TagCollectionEnabled then
      (config.TagCollector.GetTagsByCategories ds.Self).map
        (fun kv => Event.setMetric .ms (env.tagsPrefix ++ kv.1) (.str kv.2) .ATTRIBUTE)
    else []) ++
  (if config.PerfMetricsCollectionEnabled then
      (dc.GetPerfMetrics ds.Self).map
        (fun pm => Event.setMetric .ms (env.perfMetricPrefix ++ pm.Counter) (.int pm.Value) .GAUGE)
    else [])

/-- The call that creates the entity of an instance of a datastore (line 83);
its arguments do not depend on the instance. -/
def instanceCreate (env : Env) (config : Config) (dc : Datacenter) (ds : Datastore) : Event :=
  .createNewEntityWithMetricSet .ims (instanceEntityType env)
    (env.sanitizeEntityName config ds.Summary.Name dc.Name) ds.Summary.Url
    (env.createNewEntityWithMetricSet config (instanceEntityType env)
      (env.sanitizeEntityName config ds.Summary.Name dc.Name) ds.Summary.Url)

/-- The instance creation calls of a datastore whose aggregate entity was
created: one per entry of the instance map of each performance sample, when
performance metrics and consider-instances are both enabled. -/
def instanceCreations (env : Env) (config : Config) (dc : Datacenter) (ds : Datastore) : List Event :=
  if config.PerfMetricsCollectionEnabled && config.ConsiderInstancesEnabled then
    (dc.GetPerfMetrics ds.Self).flatMap
      (fun pm => List.replicate pm.InstanceValues.length (instanceCreate env config dc ds))
  else []

/-- Does the datastore get an aggregate entity: let through by the tag filter
and accepted by `createNewEntityWithMetricSet`? -/
def created (env : Env) (config : Config) (dc : Datacenter) (ds : Datastore) : Bool :=
  included config ds && !aggregateFails env config dc ds

/-- The identity of the entity of a creation call: the (kind, stable id) pair. -/
def entityKey : Event → Option (String × String)
  | .createNewEntityWithMetricSet _ typeEntity _ uniqueIdentifier _ =>
    some (typeEntity, uniqueIdentifier)
  | _ => none

/-- The kind argument of a creation call. -/
def typeEntityOf : Event → Option String
  | .createNewEntityWithMetricSet _ typeEntity _ _ _ => some typeEntity
  | _ => none

/-- Is the event a `SetMetric` call with the given key? -/
def isWriteOf (key : String) : Event → Bool
  | .setMetric _ k _ _ => k == key
  | _ => false

/-- Is the event a metric write on an instance metric set (the variable `ims`)? -/
def isInstanceWrite : Event → Bool
  | .setMetric .ims _ _ _ => true
  | _ => false

/-- The list does not start with a write on an instance metric set. -/
def StartsWithoutInstanceWrite (l : List Event) : Prop :=
  ∀ e, l.head? = some e → isInstanceWrite e = false

/-- The list has the block `block` as a segment, and what follows the block does
not start with a write on an instance metric set. -/
def HasBlock (block l : List Event) : Prop :=
  ∃ pre post, l = pre ++ block ++ post ∧ StartsWithoutInstanceWrite post

/-! ### Lemmas: the trace without log lines -/

theorem noLog_append (s t : Trace) : noLog (s ++ t) = noLog s ++ noLog t := by
  simp [noLog]

theorem noLog_nil : noLog [] = [] := rfl

theorem noLog_cons (e : Event) (t : Trace) :
    noLog (e :: t) = if isCheckErrorLog e then noLog t else e :: noLog t := by
  cases h : isCheckErrorLog e <;> simp [noLog, h]

theorem noLog_checkError_SetMetric (o : Nat → Bool) (t : Trace) (v : MetricSetVar) (key : String)
    (value : MetricValue) (ty : SourceType) :
    noLog (checkError (SetMetric o t v key value ty)) = noLog t ++ [.setMetric v key value ty] := by
  unfold checkError SetMetric
  by_cases h : o (List.countP isSetMetric t) = true <;>
    simp [h, noLog_append, noLog_cons, noLog_nil, isCheckErrorLog]

theorem noLog_foldl {α : Type} (f : Trace → α → Trace) (g : α → List Event)
    (h : ∀ t a, noLog (f t a) = noLog t ++ g a) (l : List α) (t : Trace) :
    noLog (l.foldl f t) = noLog t ++ l.flatMap g := by
  induction l generalizing t with
  | nil => simp
  | cons a l ih => simp [ih, h, List.append_assoc]

theorem noLog_instanceBody (env : Env) (o : Nat → Bool) (config : Config)
    (datacenterName entityName dataStoreID : String) (perfMetric : PerfMetric)
    (t : Trace) (kv : String × Int) :
    noLog (instanceBody env o config datacenterName entityName dataStoreID perfMetric t kv)
      = noLog t ++ instanceCalls env config datacenterName entityName dataStoreID perfMetric kv := by
  unfold instanceBody instanceCalls instanceWrites
  by_cases h : env.createNewEntityWithMetricSet config (instanceEntityType env) entityName dataStoreID = true
  · simp [h, noLog_append, noLog_cons, noLog_nil, isCheckErrorLog]
  · simp [h, noLog_checkError_SetMetric, noLog_append, noLog_cons, noLog_nil, isCheckErrorLog]

theorem noLog_perfMetricBody (env : Env) (o : Nat → Bool) (config : Config)
    (datacenterName entityName dataStoreID : String) (t : Trace) (perfMetric : PerfMetric) :
    noLog (perfMetricBody env o config datacenterName entityName dataStoreID t perfMetric)
      = noLog t ++ perfMetricCalls env config datacenterName entityName dataStoreID perfMetric := by
  unfold perfMetricBody perfMetricCalls
  by_cases h : config.ConsiderInstancesEnabled = true
  · simp only [h, if_true]
    rw [noLog_foldl _ _ (noLog_instanceBody env o config datacenterName entityName dataStoreID perfMetric)]
    simp [noLog_checkError_SetMetric]
  · simp [h, noLog_checkError_SetMetric]

theorem noLog_tagBody (env : Env) (o : Nat → Bool) (t : Trace) (kv : String × String) :
    noLog (tagBody env o t kv) = noLog t ++ tagCalls env kv := by
  simp [tagBody, tagCalls, noLog_append, noLog_checkError_SetMetric, noLog_cons, noLog_nil,
    isCheckErrorLog]

theorem noLog_infoBlock (o : Nat → Bool) (t : Trace) (info : DatastoreInfo) :
    noLog (infoBlock o t info) = noLog t ++ infoCalls info := by
  cases info with
  | NasDatastoreInfo nas =>
    cases nas <;> simp [infoBlock, infoCalls, noLog_checkError_SetMetric]
  | other => simp [infoBlock, infoCalls]

theorem noLog_datastoreBody (env : Env) (o : Nat → Bool) (config : Config) (dc : Datacenter)
    (t : Trace) (ds : Datastore) :
    noLog (datastoreBody env o config dc t ds) = noLog t ++ datastoreCalls env config dc ds := by
  unfold datastoreBody datastoreCalls included aggregateCreate aggregateFails
  by_cases hf : (config.TagFilteringEnabled && !config.TagCollector.MatchObjectTags ds.Self) = true
  · have hi : (!config.TagFilteringEnabled || config.TagCollector.MatchObjectTags ds.Self) = false := by
      cases h1 : config.TagFilteringEnabled <;>
        cases h2 : config.TagCollector.MatchObjectTags ds.Self <;> simp_all
    simp [hf, hi]
  · have hi : (!config.TagFilteringEnabled || config.TagCollector.MatchObjectTags ds.Self) = true := by
      cases h1 : config.TagFilteringEnabled <;>
        cases h2 : config.TagCollector.MatchObjectTags ds.Self <;> simp_all
    simp only [hf, hi, if_true]
    by_cases he : env.createNewEntityWithMetricSet config env.entityTypeDatastore
        (env.sanitizeEntityName config ds.Summary.Name dc.Name) ds.Summary.Url = true
    · simp [he, noLog_append, noLog_cons, noLog_nil, isCheckErrorLog]
    · simp only [he]
      unfold datastoreWrites
      by_cases h1 : (config.Args.DatacenterLocation != "") = true <;>
      by_cases h2 : config.IsVcenterAPIType = true <;>
      by_cases h3 : config.TagCollectionEnabled = true <;>
      by_cases h4 : config.PerfMetricsCollectionEnabled = true <;>
      simp only [h1, h2, h3, h4, if_true, if_false, Bool.false_eq_true,
        noLog_foldl _ _ (noLog_perfMetricBody env o config _ _ _),
        noLog_foldl _ _ (noLog_tagBody env o),
        noLog_infoBlock, noLog_checkError_SetMetric, noLog_append, noLog_cons, noLog_nil,
        isCheckErrorLog, List.append_assoc, List.cons_append, List.nil_append, List.append_nil]

theorem noLog_datacenterBody (env : Env) (o : Nat → Bool) (config : Config)
    (t : Trace) (dc : Datacenter) :
    noLog (datacenterBody env o config t dc)
      = noLog t ++ dc.Datastores.flatMap (datastoreCalls env config dc) := by
  unfold datacenterBody
  exact noLog_foldl _ _ (noLog_datastoreBody env o config dc) _ _

theorem noLog_createDatastoreSamples (env : Env) (o : Nat → Bool) (config : Config) :
    noLog (createDatastoreSamples env o config) = expectedCalls env config := by
  unfold createDatastoreSamples expectedCalls callsOver
  rw [noLog_foldl _ _ (noLog_datacenterBody env o config)]
  simp [noLog_nil]

/-! ### Lemmas: every step extends the trace -/

theorem prefix_checkError_SetMetric (o : Nat → Bool) (t : Trace) (v : MetricSetVar) (key : String)
    (value : MetricValue) (ty : SourceType) :
    t <+: checkError (SetMetric o t v key value ty) := by
  unfold checkError SetMetric
  by_cases h : o (List.countP isSetMetric t) = true
  · simp only [h, if_true, List.append_assoc]
    exact List.prefix_append _ _
  · simp only [h]
    exact List.prefix_append _ _

theorem prefix_foldl {α : Type} (f : Trace → α → Trace) (h : ∀ t a, t <+: f t a)
    (l : List α) (t : Trace) : t <+: l.foldl f t := by
  induction l generalizing t with
  | nil => exact List.prefix_rfl
  | cons a l ih => exact (h t a).trans (ih (f t a))

theorem prefix_instanceBody (env : Env) (o : Nat → Bool) (config : Config)
    (datacenterName entityName dataStoreID : String) (perfMetric : PerfMetric)
    (t : Trace) (kv : String × Int) :
    t <+: instanceBody env o config datacenterName entityName dataStoreID perfMetric t kv := by
  unfold instanceBody
  by_cases h : env.createNewEntityWithMetricSet config (instanceEntityType env) entityName dataStoreID = true
  · simp only [h, if_true, List.append_assoc]
    exact List.prefix_append _ _
  · simp only [h]
    refine List.IsPrefix.trans ?_ (prefix_checkError_SetMetric _ _ _ _ _ _)
    refine List.IsPrefix.trans ?_ (prefix_checkError_SetMetric _ _ _ _ _ _)
    refine List.IsPrefix.trans ?_ (prefix_checkError_SetMetric _ _ _ _ _ _)
    refine List.IsPrefix.trans ?_ (prefix_checkError_SetMetric _ _ _ _ _ _)
    refine List.IsPrefix.trans ?_ (prefix_checkError_SetMetric _ _ _ _ _ _)
    exact List.prefix_append _ _

theorem prefix_perfMetricBody (env : Env) (o : Nat → Bool) (config : Config)
    (datacenterName entityName dataStoreID : String) (t : Trace) (perfMetric : PerfMetric) :
    t <+: perfMetricBody env o config datacenterName entityName dataStoreID t perfMetric := by
  unfold perfMetricBody
  by_cases h : config.ConsiderInstancesEnabled = true
  · simp only [h, if_true]
    exact (prefix_checkError_SetMetric _ _ _ _ _ _).trans
      (prefix_foldl _ (prefix_instanceBody env o config _ _ _ _) _ _)
  · simp only [h]
    exact prefix_checkError_SetMetric _ _ _ _ _ _

theorem prefix_tagBody (env : Env) (o : Nat → Bool) (t : Trace) (kv : String × String) :
    t <+: tagBody env o t kv := by
  unfold tagBody
  exact (prefix_checkError_SetMetric _ _ _ _ _ _).trans (List.prefix_append _ _)

theorem prefix_infoBlock (o : Nat → Bool) (t : Trace) (info : DatastoreInfo) :
    t <+: infoBlock o t info := by
  cases info with
  | NasDatastoreInfo nas =>
    cases nas with
    | none => exact List.prefix_rfl
    | some nas =>
      exact (prefix_checkError_SetMetric _ _ _ _ _ _).trans
        (prefix_checkError_SetMetric _ _ _ _ _ _)
  | other => exact List.prefix_rfl

/-- What `datastoreBody` runs after a successful creation of the aggregate
entity (lines 36-102) extends the trace it starts from. -/
theorem prefix_datastoreBody_created (env : Env) (o : Nat → Bool) (config : Config)
    (dc : Datacenter) (t : Trace) (ds : Datastore)
    (hi : (config.TagFilteringEnabled && !config.TagCollector.MatchObjectTags ds.Self) = false)
    (he : env.createNewEntityWithMetricSet config env.entityTypeDatastore
        (env.sanitizeEntityName config ds.Summary.Name dc.Name) ds.Summary.Url = false) :
    t ++ [.createNewEntityWithMetricSet .ms env.entityTypeDatastore
        (env.sanitizeEntityName config ds.Summary.Name dc.Name) ds.Summary.Url false]
      <+: datastoreBody env o config dc t ds := by
  unfold datastoreBody
  simp only [hi, he, Bool.false_eq_true, if_false]
  by_cases h1 : (config.Args.DatacenterLocation != "") = true <;>
  by_cases h2 : config.IsVcenterAPIType = true <;>
  by_cases h3 : config.TagCollectionEnabled = true <;>
  by_cases h4 : config.PerfMetricsCollectionEnabled = true <;>
  simp only [h1, h2, h3, h4, if_true, if_false, Bool.false_eq_true] <;>
  repeat (first
    | exact List.prefix_rfl
    | refine List.IsPrefix.trans ?_ (prefix_checkError_SetMetric _ _ _ _ _ _)
    | refine List.IsPrefix.trans ?_ (prefix_infoBlock _ _ _)
    | refine List.IsPrefix.trans ?_ (prefix_foldl _ (prefix_tagBody env o) _ _)
    | refine List.IsPrefix.trans ?_ (prefix_foldl _ (prefix_perfMetricBody env o config _ _ _) _ _)
    | refine List.IsPrefix.trans ?_ (List.prefix_append _ _))

/-! ### Lemmas: the datastore loop as one loop -/

theorem foldl_datacenterBody (env : Env) (o : Nat → Bool) (config : Config)
    (dcs : List Datacenter) (t : Trace) :
    dcs.foldl (datacenterBody env o config) t
      = (allDatastores dcs).foldl (fun t p => datastoreBody env o config p.1 t p.2) t := by
  induction dcs generalizing t with
  | nil => rfl
  | cons dc dcs ih =>
    simp only [List.foldl_cons, allDatastores, List.flatMap_cons, List.foldl_append]
    rw [ih]
    simp [datacenterBody, allDatastores, List.foldl_map]

theorem foldl_filter_of_skip {α : Type} (f : Trace → α → Trace) (p : α → Bool)
    (h : ∀ t a, p a = false → f t a = t) (l : List α) (t : Trace) :
    (l.filter p).foldl f t = l.foldl f t := by
  induction l generalizing t with
  | nil => rfl
  | cons a l ih =>
    cases hp : p a
    · simp [List.filter_cons, hp, h t a hp, ih]
    · simp [List.filter_cons, hp, ih]

theorem datastoreBody_excluded (env : Env) (o : Nat → Bool) (config : Config)
    (dc : Datacenter) (t : Trace) (ds : Datastore) (h : included config ds = false) :
    datastoreBody env o config dc t ds = t := by
  unfold included at h
  unfold datastoreBody
  cases h1 : config.TagFilteringEnabled <;>
    cases h2 : config.TagCollector.MatchObjectTags ds.Self <;> simp_all

theorem filter_isCreate_ms_noLog (t : Trace) :
    (noLog t).filter (isCreate .ms) = t.filter (isCreate .ms) := by
  unfold noLog
  rw [List.filter_filter]
  congr 1
  funext e
  cases e <;> simp [isCreate, isCheckErrorLog]

theorem filter_isCreate_ms_instanceCalls (env : Env) (config : Config)
    (datacenterName entityName dataStoreID : String) (perfMetric : PerfMetric) (kv : String × Int) :
    (instanceCalls env config datacenterName entityName dataStoreID perfMetric kv).filter
      (isCreate .ms) = [] := by
  unfold instanceCalls instanceWrites
  by_cases h : env.createNewEntityWithMetricSet config (instanceEntityType env) entityName
      dataStoreID = true <;> simp [h, isCreate]

theorem filter_flatMap_eq_nil {α : Type} (p : Event → Bool) (f : α → List Event)
    (h : ∀ a, (f a).filter p = []) (l : List α) : (l.flatMap f).filter p = [] := by
  induction l with
  | nil => rfl
  | cons a l ih => simp [List.flatMap_cons, h a, ih]

theorem filter_isCreate_ms_perfMetricCalls (env : Env) (config : Config)
    (datacenterName entityName dataStoreID : String) (perfMetric : PerfMetric) :
    (perfMetricCalls env config datacenterName entityName dataStoreID perfMetric).filter
      (isCreate .ms) = [] := by
  unfold perfMetricCalls
  by_cases h : config.ConsiderInstancesEnabled = true
  · simp only [h, if_true, List.filter_cons]
    simp [isCreate, filter_flatMap_eq_nil _ _
      (filter_isCreate_ms_instanceCalls env config datacenterName entityName dataStoreID perfMetric)]
  · simp [h, isCreate]

theorem filter_isCreate_ms_datastoreWrites (env : Env) (config : Config) (dc : Datacenter)
    (ds : Datastore) : (datastoreWrites env config dc ds).filter (isCreate .ms) = [] := by
  unfold datastoreWrites
  have hinfo : (infoCalls ds.Info).filter (isCreate .ms) = [] := by
    cases hI : ds.Info with
    | NasDatastoreInfo nas => cases nas <;> simp [infoCalls, isCreate]
    | other => simp [infoCalls]
  have htag : ((config.TagCollector.GetTagsByCategories ds.Self).flatMap (tagCalls env)).filter
      (isCreate .ms) = [] :=
    filter_flatMap_eq_nil _ _ (fun kv => by simp [tagCalls, isCreate]) _
  have hperf := filter_flatMap_eq_nil (isCreate .ms) _
    (filter_isCreate_ms_perfMetricCalls env config dc.Name
      (env.sanitizeEntityName config ds.Summary.Name dc.Name) ds.Summary.Url)
    (dc.GetPerfMetrics ds.Self)
  by_cases h1 : (config.Args.DatacenterLocation != "") = true <;>
  by_cases h2 : config.IsVcenterAPIType = true <;>
  by_cases h3 : config.TagCollectionEnabled = true <;>
  by_cases h4 : config.PerfMetricsCollectionEnabled = true <;>
  simp [h1, h2, h3, h4, hinfo, htag, hperf, isCreate, List.filter_cons]

theorem filter_isCreate_ms_datastoreCalls (env : Env) (config : Config) (dc : Datacenter)
    (ds : Datastore) :
    (datastoreCalls env config dc ds).filter (isCreate .ms)
      = if included config ds then [aggregateCreate env config dc ds] else [] := by
  unfold datastoreCalls
  by_cases hi : included config ds = true
  · by_cases he : aggregateFails env config dc ds = true
    · simp [hi, he, aggregateCreate, isCreate, List.filter_cons]
    · simp [hi, he, aggregateCreate, isCreate, List.filter_cons,
        filter_isCreate_ms_datastoreWrites]
  · simp [hi]

theorem filter_isCreate_ms_callsOver (env : Env) (config : Config) (dcs : List Datacenter) :
    (callsOver env config dcs).filter (isCreate .ms)
      = ((allDatastores dcs).filter (fun p => included config p.2)).map
          (fun p => aggregateCreate env config p.1 p.2) := by
  unfold callsOver allDatastores
  induction dcs with
  | nil => rfl
  | cons dc dcs ih =>
    simp only [List.flatMap_cons, List.filter_append, List.map_append, ih]
    congr 1
    induction dc.Datastores with
    | nil => rfl
    | cons ds dss ihd =>
      simp only [List.flatMap_cons, List.filter_append, List.map_cons, List.filter_cons, ihd,
        filter_isCreate_ms_datastoreCalls]
      by_cases hi : included config ds = true <;> simp [hi]

/-! ## The claims -/

/-- C1. The tag filter is applied before anything is emitted.  The calls that
create an aggregate entity are, in input order, exactly those for the
datastores with tag filtering disabled or `MatchObjectTags(ds.Self)` true; the
whole run is the run of the loop body over those datastores alone, so an
excluded datastore contributes no event at all (no creation, no metric write,
no inventory tag, no `GetPerfMetrics` call, no instance); and the loop body of
an included datastore starts with the creation call while that of an excluded
one leaves the trace as it is. -/
theorem createDatastoreSamples_filters_before_emitting (env : Env) (setMetricErr : Nat → Bool)
    (config : Config) :
    (createDatastoreSamples env setMetricErr config).filter (isCreate .ms)
        = ((allDatastores config.Datacenters).filter
            (fun p => !config.TagFilteringEnabled || config.TagCollector.MatchObjectTags p.2.Self)).map
            (fun p => Event.createNewEntityWithMetricSet .ms env.entityTypeDatastore
              (env.sanitizeEntityName config p.2.Summary.Name p.1.Name) p.2.Summary.Url
              (env.createNewEntityWithMetricSet config env.entityTypeDatastore
                (env.sanitizeEntityName config p.2.Summary.Name p.1.Name) p.2.Summary.Url))
    ∧ createDatastoreSamples env setMetricErr config
        = ((allDatastores config.Datacenters).filter
            (fun p => !config.TagFilteringEnabled || config.TagCollector.MatchObjectTags p.2.Self)).foldl
            (fun t p => datastoreBody env setMetricErr config p.1 t p.2) []
    ∧ ∀ (dc : Datacenter) (ds : Datastore) (t : Trace), ∃ rest : List Event,
        datastoreBody env setMetricErr config dc t ds
          = t ++ (if !config.TagFilteringEnabled || config.TagCollector.MatchObjectTags ds.Self then
              Event.createNewEntityWithMetricSet .ms env.entityTypeDatastore
                (env.sanitizeEntityName config ds.Summary.Name dc.Name) ds.Summary.Url
                (env.createNewEntityWithMetricSet config env.entityTypeDatastore
                  (env.sanitizeEntityName config ds.Summary.Name dc.Name) ds.Summary.Url) :: rest
            else []) := by
  refine ⟨?_, ?_, ?_⟩
  · rw [← filter_isCreate_ms_noLog, noLog_createDatastoreSamples]
    exact filter_isCreate_ms_callsOver env config config.Datacenters
  · unfold createDatastoreSamples
    rw [foldl_datacenterBody]
    exact (foldl_filter_of_skip
      (fun (t : Trace) (p : Datacenter × Datastore) =>
        datastoreBody env setMetricErr config p.1 t p.2)
      (fun p => included config p.2)
      (fun t p h => datastoreBody_excluded env setMetricErr config p.1 t p.2 h) _ _).symm
  · intro dc ds t
    by_cases hi : included config ds = true
    · have hi2 := hi
      unfold included at hi2
      simp only [hi2, if_true]
      have hf : (config.TagFilteringEnabled && !config.TagCollector.MatchObjectTags ds.Self)
          = false := by
        cases h1 : config.TagFilteringEnabled <;>
          cases h2 : config.TagCollector.MatchObjectTags ds.Self <;> simp_all
      by_cases he : env.createNewEntityWithMetricSet config env.entityTypeDatastore
          (env.sanitizeEntityName config ds.Summary.Name dc.Name) ds.Summary.Url = true
      · refine ⟨[.logCreateFailure .ms (env.sanitizeEntityName config ds.Summary.Name dc.Name)
          ds.Summary.Url], ?_⟩
        unfold datastoreBody
        simp [hf, he]
      · have he2 : env.createNewEntityWithMetricSet config env.entityTypeDatastore
            (env.sanitizeEntityName config ds.Summary.Name dc.Name) ds.Summary.Url = false := by
          simpa using he
        obtain ⟨rest, hrest⟩ := prefix_datastoreBody_created env setMetricErr config dc t ds hf he2
        refine ⟨rest, ?_⟩
        rw [← hrest, he2]
        simp
    · have hi2 : included config ds = false := by simpa using hi
      refine ⟨[], ?_⟩
      rw [datastoreBody_excluded env setMetricErr config dc t ds hi2]
      unfold included at hi2
      simp [hi2]

/-! ### Lemmas: configurations that differ in one argument -/

theorem length_pos_iff_ne_empty (s : String) : 0 < s.length ↔ s ≠ "" := by
  rw [String.length, List.length_pos]
  constructor
  · intro h hs
    exact h (by rw [hs])
  · intro h hd
    exact h (String.ext hd)

theorem tagFilteringEnabled_of_collection_disabled (config : Config)
    (h : config.TagCollectionEnabled = false) : config.TagFilteringEnabled = false := by
  simp [Config.TagFilteringEnabled, h]

theorem instanceBody_congr (env : Env) (o : Nat → Bool) (c c' : Config)
    (hloc : c'.Args.DatacenterLocation = c.Args.DatacenterLocation)
    (hc : env.createNewEntityWithMetricSet c' = env.createNewEntityWithMetricSet c) :
    instanceBody env o c' = instanceBody env o c := by
  funext datacenterName entityName dataStoreID perfMetric t kv
  unfold instanceBody
  rw [hc, hloc]

theorem perfMetricBody_congr (env : Env) (o : Nat → Bool) (c c' : Config)
    (hloc : c'.Args.DatacenterLocation = c.Args.DatacenterLocation)
    (hinst : c'.ConsiderInstancesEnabled = c.ConsiderInstancesEnabled)
    (hc : env.createNewEntityWithMetricSet c' = env.createNewEntityWithMetricSet c) :
    perfMetricBody env o c' = perfMetricBody env o c := by
  funext datacenterName entityName dataStoreID t perfMetric
  unfold perfMetricBody
  rw [instanceBody_congr env o c c' hloc hc, hinst]

theorem datastoreBody_congr (env : Env) (o : Nat → Bool) (c c' : Config)
    (hfilter : c'.TagFilteringEnabled = c.TagFilteringEnabled)
    (htc : c'.TagCollector = c.TagCollector)
    (hloc : c'.Args.DatacenterLocation = c.Args.DatacenterLocation)
    (hapi : c'.IsVcenterAPIType = c.IsVcenterAPIType)
    (htags : c'.TagCollectionEnabled = c.TagCollectionEnabled)
    (hperf : c'.PerfMetricsCollectionEnabled = c.PerfMetricsCollectionEnabled)
    (hinst : c'.ConsiderInstancesEnabled = c.ConsiderInstancesEnabled)
    (hs : env.sanitizeEntityName c' = env.sanitizeEntityName c)
    (hc : env.createNewEntityWithMetricSet c' = env.createNewEntityWithMetricSet c) :
    datastoreBody env o c' = datastoreBody env o c := by
  funext dc t ds
  unfold datastoreBody
  rw [perfMetricBody_congr env o c c' hloc hinst hc, hfilter, htc, hloc, hapi, htags, hperf, hs, hc]

/-- C2. With tag collection disabled (no vCenter, or `EnableVsphereTags` off) the
value of `Args.IncludeTags` is without effect: for a configuration and the one
that differs from it in `Args.IncludeTags` only, `TagFilteringEnabled()` is false
in both, the two runs have the same trace, and every datastore is processed:
the aggregate creation calls are those of all the datastores, in input order.
The helpers that are not in the source files and receive the configuration are
assumed not to read `Args.IncludeTags`. -/
theorem includeTags_ignored_without_tag_collection (env : Env) (setMetricErr : Nat → Bool)
    (config : Config) (includeTags : String)
    (hdisabled : config.IsVcenterAPIType = false ∨ config.Args.EnableVsphereTags = false)
    (hsanitize : env.sanitizeEntityName (withIncludeTags config includeTags)
      = env.sanitizeEntityName config)
    (hcreate : env.createNewEntityWithMetricSet (withIncludeTags config includeTags)
      = env.createNewEntityWithMetricSet config) :
    config.TagFilteringEnabled = false
    ∧ (withIncludeTags config includeTags).TagFilteringEnabled = false
    ∧ createDatastoreSamples env setMetricErr (withIncludeTags config includeTags)
        = createDatastoreSamples env setMetricErr config
    ∧ (createDatastoreSamples env setMetricErr config).filter (isCreate .ms)
        = (allDatastores config.Datacenters).map
            (fun p => Event.createNewEntityWithMetricSet .ms env.entityTypeDatastore
              (env.sanitizeEntityName config p.2.Summary.Name p.1.Name) p.2.Summary.Url
              (env.createNewEntityWithMetricSet config env.entityTypeDatastore
                (env.sanitizeEntityName config p.2.Summary.Name p.1.Name) p.2.Summary.Url)) := by
  have hcol : config.TagCollectionEnabled = false := by
    unfold Config.TagCollectionEnabled
    rcases hdisabled with h | h <;> simp [h]
  have hcol2 : (withIncludeTags config includeTags).TagCollectionEnabled = false := hcol
  have hf := tagFilteringEnabled_of_collection_disabled config hcol
  have hf2 := tagFilteringEnabled_of_collection_disabled _ hcol2
  refine ⟨hf, hf2, ?_, ?_⟩
  · unfold createDatastoreSamples datacenterBody
    rw [datastoreBody_congr env setMetricErr config (withIncludeTags config includeTags)
      (hf2.trans hf.symm) rfl rfl rfl rfl rfl rfl hsanitize hcreate]
    rfl
  · rw [← filter_isCreate_ms_noLog, noLog_createDatastoreSamples, expectedCalls,
      filter_isCreate_ms_callsOver]
    have hall : (allDatastores config.Datacenters).filter (fun p => included config p.2)
        = allDatastores config.Datacenters := by
      apply List.filter_eq_self.2
      intro p _
      simp [included, hf]
    rw [hall]
    rfl

/-- C2, at the example: no vCenter, `IncludeTags` set to `"env=dev"`; the three
datastores are all processed although only `A` matches a tag. -/
theorem includeTags_ignored_without_tag_collection_witness :
    (exampleConfig {} false).TagFilteringEnabled = false
    ∧ (withIncludeTags (exampleConfig {} false) "env=dev").TagFilteringEnabled = false
    ∧ createDatastoreSamples exampleEnv (fun _ => false)
          (withIncludeTags (exampleConfig {} false) "env=dev")
        = createDatastoreSamples exampleEnv (fun _ => false) (exampleConfig {} false)
    ∧ (createDatastoreSamples exampleEnv (fun _ => false) (exampleConfig {} false)).filter
          (isCreate .ms)
        = (allDatastores (exampleConfig {} false).Datacenters).map
            (fun p => Event.createNewEntityWithMetricSet .ms exampleEnv.entityTypeDatastore
              (exampleEnv.sanitizeEntityName (exampleConfig {} false) p.2.Summary.Name p.1.Name)
              p.2.Summary.Url
              (exampleEnv.createNewEntityWithMetricSet (exampleConfig {} false)
                exampleEnv.entityTypeDatastore
                (exampleEnv.sanitizeEntityName (exampleConfig {} false) p.2.Summary.Name p.1.Name)
                p.2.Summary.Url)) :=
  includeTags_ignored_without_tag_collection exampleEnv (fun _ => false) (exampleConfig {} false)
    "env=dev" (Or.inl rfl) rfl rfl

/-- C3, as stated, fails: with tag collection enabled and `IncludeTags` a single
blank, `TagFilteringEnabled()` is true although no pair is parsed; the same for
the malformed entry `"env"`. -/
theorem tagFilteringEnabled_with_empty_pair_set :
    (exampleConfig { EnableVsphereTags := true, IncludeTags := " " } true).TagFilteringEnabled = true
    ∧ parseIncludeTags " " = []
    ∧ (exampleConfig { EnableVsphereTags := true, IncludeTags := "env" } true).TagFilteringEnabled
        = true
    ∧ parseIncludeTags "env" = [] := by
  decide

/-- C3, amended. `TagFilteringEnabled()` is true exactly when tag collection is
enabled and the raw string `Args.IncludeTags` is not empty, whatever it parses
to; a string that parses to at least one pair is not empty, so filtering is
enabled for it when tag collection is. -/
theorem tagFilteringEnabled_iff (config : Config) :
    (config.TagFilteringEnabled = true
      ↔ config.TagCollectionEnabled = true ∧ config.Args.IncludeTags ≠ "")
    ∧ (config.TagCollectionEnabled = true → parseIncludeTags config.Args.IncludeTags ≠ []
        → config.TagFilteringEnabled = true) := by
  have hiff : config.TagFilteringEnabled = true
      ↔ config.TagCollectionEnabled = true ∧ config.Args.IncludeTags ≠ "" := by
    unfold Config.TagFilteringEnabled
    rw [Bool.and_eq_true, decide_eq_true_iff, length_pos_iff_ne_empty]
  refine ⟨hiff, fun hcol hparse => hiff.2 ⟨hcol, ?_⟩⟩
  intro hempty
  apply hparse
  rw [hempty]
  rfl

/-- C3, amended, at the example of the spec: `"env=prod dc=eu"` parses to two
pairs and enables filtering on a vCenter with tags enabled. -/
theorem tagFilteringEnabled_iff_witness :
    parseIncludeTags "env=prod dc=eu" = [("env", "prod"), ("dc", "eu")]
    ∧ (exampleConfig { EnableVsphereTags := true, IncludeTags := "env=prod dc=eu" }
        true).TagFilteringEnabled = true :=
  ⟨by decide,
   (tagFilteringEnabled_iff
      (exampleConfig { EnableVsphereTags := true, IncludeTags := "env=prod dc=eu" } true)).2
      (by decide) (by decide)⟩

/-! ### Lemmas: dropping the events of the failing datastores -/

theorem dropAggregateFailures_append (s t : Trace) :
    dropAggregateFailures (s ++ t) = dropAggregateFailures s ++ dropAggregateFailures t := by
  simp [dropAggregateFailures]

theorem dropAggregateFailures_cons (e : Event) (t : Trace) :
    dropAggregateFailures (e :: t)
      = if isAggregateFailure e then dropAggregateFailures t else e :: dropAggregateFailures t := by
  cases h : isAggregateFailure e <;> simp [dropAggregateFailures, h]

theorem dropAggregateFailures_nil : dropAggregateFailures [] = [] := rfl

theorem countP_isSetMetric_dropAggregateFailures (t : Trace) :
    (dropAggregateFailures t).countP isSetMetric = t.countP isSetMetric := by
  induction t with
  | nil => rfl
  | cons e t ih =>
    rw [dropAggregateFailures_cons]
    cases e with
    | createNewEntityWithMetricSet v a b c failed =>
      cases v <;> cases failed <;> simp [isAggregateFailure, isSetMetric, ih]
    | logCreateFailure v a b => cases v <;> simp [isAggregateFailure, isSetMetric, ih]
    | setMetric v a b c => simp [isAggregateFailure, isSetMetric, ih]
    | checkErrorLog => simp [isAggregateFailure, isSetMetric, ih]
    | addTagsToInventory a b => simp [isAggregateFailure, isSetMetric, ih]
    | getPerfMetrics a b => simp [isAggregateFailure, isSetMetric, ih]

theorem drop_checkError_SetMetric (o : Nat → Bool) (t : Trace) (v : MetricSetVar) (key : String)
    (value : MetricValue) (ty : SourceType) :
    dropAggregateFailures (checkError (SetMetric o t v key value ty))
      = checkError (SetMetric o (dropAggregateFailures t) v key value ty) := by
  unfold checkError SetMetric
  simp only [countP_isSetMetric_dropAggregateFailures]
  by_cases h : o (List.countP isSetMetric t) = true <;>
    simp [h, dropAggregateFailures_append, dropAggregateFailures_cons, dropAggregateFailures_nil,
      isAggregateFailure]

theorem drop_foldl {α : Type} (f : Trace → α → Trace)
    (h : ∀ t a, dropAggregateFailures (f t a) = f (dropAggregateFailures t) a)
    (l : List α) (t : Trace) :
    dropAggregateFailures (l.foldl f t) = l.foldl f (dropAggregateFailures t) := by
  induction l generalizing t with
  | nil => rfl
  | cons a l ih => simp [ih, h]

theorem drop_instanceBody (env : Env) (o : Nat → Bool) (config : Config)
    (datacenterName entityName dataStoreID : String) (perfMetric : PerfMetric)
    (t : Trace) (kv : String × Int) :
    dropAggregateFailures
        (instanceBody env o config datacenterName entityName dataStoreID perfMetric t kv)
      = instanceBody env o config datacenterName entityName dataStoreID perfMetric
          (dropAggregateFailures t) kv := by
  unfold instanceBody
  by_cases h : env.createNewEntityWithMetricSet config (instanceEntityType env) entityName
      dataStoreID = true
  · simp [h, dropAggregateFailures_append, dropAggregateFailures_cons, dropAggregateFailures_nil,
      isAggregateFailure]
  · simp [h, drop_checkError_SetMetric, dropAggregateFailures_append, dropAggregateFailures_cons,
      dropAggregateFailures_nil, isAggregateFailure]

theorem drop_perfMetricBody (env : Env) (o : Nat → Bool) (config : Config)
    (datacenterName entityName dataStoreID : String) (t : Trace) (perfMetric : PerfMetric) :
    dropAggregateFailures
        (perfMetricBody env o config datacenterName entityName dataStoreID t perfMetric)
      = perfMetricBody env o config datacenterName entityName dataStoreID
          (dropAggregateFailures t) perfMetric := by
  unfold perfMetricBody
  by_cases h : config.ConsiderInstancesEnabled = true
  · simp only [h, if_true]
    rw [drop_foldl _ (drop_instanceBody env o config datacenterName entityName dataStoreID
      perfMetric), drop_checkError_SetMetric]
  · simp [h, drop_checkError_SetMetric]

theorem drop_tagBody (env : Env) (o : Nat → Bool) (t : Trace) (kv : String × String) :
    dropAggregateFailures (tagBody env o t kv) = tagBody env o (dropAggregateFailures t) kv := by
  simp [tagBody, drop_checkError_SetMetric, dropAggregateFailures_append,
    dropAggregateFailures_cons, dropAggregateFailures_nil, isAggregateFailure]

theorem drop_infoBlock (o : Nat → Bool) (t : Trace) (info : DatastoreInfo) :
    dropAggregateFailures (infoBlock o t info) = infoBlock o (dropAggregateFailures t) info := by
  cases info with
  | NasDatastoreInfo nas => cases nas <;> simp [infoBlock, drop_checkError_SetMetric]
  | other => simp [infoBlock]

/-- The body of a datastore whose entity creation fails: the failed call and its
log line, nothing else. -/
theorem datastoreBody_of_creationFails (env : Env) (o : Nat → Bool) (config : Config)
    (dc : Datacenter) (t : Trace) (ds : Datastore)
    (h : creationFails env config dc ds = true) :
    datastoreBody env o config dc t ds
      = t ++ [.createNewEntityWithMetricSet .ms env.entityTypeDatastore
                (env.sanitizeEntityName config ds.Summary.Name dc.Name) ds.Summary.Url true,
              .logCreateFailure .ms (env.sanitizeEntityName config ds.Summary.Name dc.Name)
                ds.Summary.Url] := by
  unfold creationFails included aggregateFails at h
  rw [Bool.and_eq_true] at h
  obtain ⟨hi, he⟩ := h
  have hf : (config.TagFilteringEnabled && !config.TagCollector.MatchObjectTags ds.Self)
      = false := by
    cases h1 : config.TagFilteringEnabled <;>
      cases h2 : config.TagCollector.MatchObjectTags ds.Self <;> simp_all
  unfold datastoreBody
  simp [hf, he]

/-- The body of a datastore whose entity creation does not fail commutes with
the removal of the failure events. -/
theorem drop_datastoreBody (env : Env) (o : Nat → Bool) (config : Config)
    (dc : Datacenter) (t : Trace) (ds : Datastore)
    (h : creationFails env config dc ds = false) :
    dropAggregateFailures (datastoreBody env o config dc t ds)
      = datastoreBody env o config dc (dropAggregateFailures t) ds := by
  by_cases hi : included config ds = true
  · have he : env.createNewEntityWithMetricSet config env.entityTypeDatastore
        (env.sanitizeEntityName config ds.Summary.Name dc.Name) ds.Summary.Url = false := by
      unfold creationFails aggregateFails at h
      simpa [hi] using h
    have hf : (config.TagFilteringEnabled && !config.TagCollector.MatchObjectTags ds.Self)
        = false := by
      unfold included at hi
      cases h1 : config.TagFilteringEnabled <;>
        cases h2 : config.TagCollector.MatchObjectTags ds.Self <;> simp_all
    unfold datastoreBody
    simp only [hf, he, Bool.false_eq_true, if_false]
    by_cases h1 : (config.Args.DatacenterLocation != "") = true <;>
    by_cases h2 : config.IsVcenterAPIType = true <;>
    by_cases h3 : config.TagCollectionEnabled = true <;>
    by_cases h4 : config.PerfMetricsCollectionEnabled = true <;>
    simp only [h1, h2, h3, h4, if_true, if_false, Bool.false_eq_true,
      drop_foldl _ (drop_perfMetricBody env o config _ _ _),
      drop_foldl _ (drop_tagBody env o),
      drop_infoBlock, drop_checkError_SetMetric, dropAggregateFailures_append,
      dropAggregateFailures_cons, dropAggregateFailures_nil, isAggregateFailure]
  · have hi2 : included config ds = false := by simpa using hi
    rw [datastoreBody_excluded env o config dc t ds hi2,
      datastoreBody_excluded env o config dc _ ds hi2]

theorem drop_foldl_datastoreBody (env : Env) (o : Nat → Bool) (config : Config)
    (dc : Datacenter) (l : List Datastore) (t : Trace) :
    dropAggregateFailures (l.foldl (datastoreBody env o config dc) t)
      = (l.filter (fun ds => !creationFails env config dc ds)).foldl
          (datastoreBody env o config dc) (dropAggregateFailures t) := by
  induction l generalizing t with
  | nil => rfl
  | cons ds l ih =>
    rw [List.foldl_cons, ih]
    cases h : creationFails env config dc ds
    · simp [List.filter_cons, h, drop_datastoreBody env o config dc t ds h]
    · simp [List.filter_cons, h, datastoreBody_of_creationFails env o config dc t ds h,
        dropAggregateFailures_append, dropAggregateFailures_cons, dropAggregateFailures_nil,
        isAggregateFailure]

theorem datastoreBody_datacenter_congr (env : Env) (o : Nat → Bool) (config : Config)
    (dc dc' : Datacenter) (hn : dc'.Name = dc.Name)
    (hp : dc'.GetPerfMetrics = dc.GetPerfMetrics) :
    datastoreBody env o config dc' = datastoreBody env o config dc := by
  funext t ds
  unfold datastoreBody
  rw [hn, hp]

theorem drop_foldl_datacenterBody (env : Env) (o : Nat → Bool) (config : Config)
    (dcs : List Datacenter) (t : Trace) :
    dropAggregateFailures (dcs.foldl (datacenterBody env o config) t)
      = (withoutFailing env config dcs).foldl (datacenterBody env o config)
          (dropAggregateFailures t) := by
  induction dcs generalizing t with
  | nil => rfl
  | cons dc dcs ih =>
    have hcons : withoutFailing env config (dc :: dcs)
        = withoutFailingIn env config dc :: withoutFailing env config dcs := rfl
    rw [List.foldl_cons, ih, hcons, List.foldl_cons]
    congr 1
    unfold datacenterBody
    rw [drop_foldl_datastoreBody,
      datastoreBody_datacenter_congr env o config dc (withoutFailingIn env config dc) rfl rfl]
    rfl

/-- C4. A datastore whose entity creation fails is skipped and the run goes on.
The body of such a datastore appends the failed creation call and its log line
and nothing else (no metric write, no inventory tag, no `GetPerfMetrics` call);
and the run over the input without the failing datastores has exactly the
trace of the full run with those two events of each failing datastore taken
out: every other datastore, before or after a failing one, produces the same
events, with the same outcome of each `SetMetric` call.  The helpers that are not
in the source files and receive the configuration are assumed not to read
`Datacenters`. -/
theorem failing_datastore_is_skipped (env : Env) (setMetricErr : Nat → Bool) (config : Config)
    (hsanitize : env.sanitizeEntityName
        (withDatacenters config (withoutFailing env config config.Datacenters))
      = env.sanitizeEntityName config)
    (hcreate : env.createNewEntityWithMetricSet
        (withDatacenters config (withoutFailing env config config.Datacenters))
      = env.createNewEntityWithMetricSet config) :
    createDatastoreSamples env setMetricErr
        (withDatacenters config (withoutFailing env config config.Datacenters))
      = (createDatastoreSamples env setMetricErr config).filter (fun e => !isAggregateFailure e)
    ∧ ∀ (dc : Datacenter) (ds : Datastore) (t : Trace),
        (!config.TagFilteringEnabled || config.TagCollector.MatchObjectTags ds.Self) = true →
        env.createNewEntityWithMetricSet config env.entityTypeDatastore
          (env.sanitizeEntityName config ds.Summary.Name dc.Name) ds.Summary.Url = true →
        datastoreBody env setMetricErr config dc t ds
          = t ++ [.createNewEntityWithMetricSet .ms env.entityTypeDatastore
                    (env.sanitizeEntityName config ds.Summary.Name dc.Name) ds.Summary.Url true,
                  .logCreateFailure .ms (env.sanitizeEntityName config ds.Summary.Name dc.Name)
                    ds.Summary.Url] := by
  constructor
  · have hbody := datastoreBody_congr env setMetricErr config
      (withDatacenters config (withoutFailing env config config.Datacenters))
      rfl rfl rfl rfl rfl rfl rfl hsanitize hcreate
    have hdc : datacenterBody env setMetricErr
          (withDatacenters config (withoutFailing env config config.Datacenters))
        = datacenterBody env setMetricErr config := by
      funext t dc
      unfold datacenterBody
      rw [hbody]
    show _ = dropAggregateFailures (createDatastoreSamples env setMetricErr config)
    unfold createDatastoreSamples
    rw [hdc, drop_foldl_datacenterBody]
    rfl
  · intro dc ds t hi he
    exact datastoreBody_of_creationFails env setMetricErr config dc t ds
      (by unfold creationFails included aggregateFails; rw [hi, he]; rfl)

/-- C4, at the example: datastore `B` is rejected; the run without it has the
trace of the full run minus the two events of `B`, whichever metric writes
fail (here every third one). -/
theorem failing_datastore_is_skipped_witness :
    creationFails exampleEnv instancesConfig exampleDatacenter datastoreB = true
    ∧ createDatastoreSamples exampleEnv (fun n => n % 3 == 0)
        (withDatacenters instancesConfig
          (withoutFailing exampleEnv instancesConfig instancesConfig.Datacenters))
      = (createDatastoreSamples exampleEnv (fun n => n % 3 == 0) instancesConfig).filter
          (fun e => !isAggregateFailure e) :=
  ⟨by decide,
   (failing_datastore_is_skipped exampleEnv (fun n => n % 3 == 0) instancesConfig rfl rfl).1⟩

/-- C5. A failing `SetMetric` is logged by `checkError` and has no other effect on
the run: for any two outcome functions of `SetMetric` (any two subsets of failing
calls) the two traces are the same once the log lines of `checkError` are
removed: the same `SetMetric` calls (metric set, key, value, type), the same
entity creations and the same other calls, in the same order; with the calls
that fail being exactly those followed by a log line. -/
theorem setMetric_failure_is_swallowed (env : Env) (setMetricErr setMetricErr' : Nat → Bool)
    (config : Config) :
    (createDatastoreSamples env setMetricErr config).filter (fun e => !isCheckErrorLog e)
      = (createDatastoreSamples env setMetricErr' config).filter (fun e => !isCheckErrorLog e)
    ∧ ∀ (t : Trace) (v : MetricSetVar) (key : String) (value : MetricValue) (ty : SourceType),
        checkError (SetMetric setMetricErr t v key value ty)
          = t ++ .setMetric v key value ty ::
              (if setMetricErr (t.countP isSetMetric) then [.checkErrorLog] else []) := by
  constructor
  · show noLog _ = noLog _
    rw [noLog_createDatastoreSamples, noLog_createDatastoreSamples]
  · intro t v key value ty
    unfold checkError SetMetric
    by_cases h : setMetricErr (List.countP isSetMetric t) = true <;> simp [h]

/-! ### Lemmas: the aggregate part and the instance part of the calls -/

theorem filter_isAggregate_noLog (t : Trace) :
    (noLog t).filter isAggregate = t.filter isAggregate := by
  unfold noLog
  rw [List.filter_filter]
  congr 1
  funext e
  cases e <;> simp [isAggregate, isCheckErrorLog]

theorem filter_isCreate_ims_noLog (t : Trace) :
    (noLog t).filter (isCreate .ims) = t.filter (isCreate .ims) := by
  unfold noLog
  rw [List.filter_filter]
  congr 1
  funext e
  cases e <;> simp [isCreate, isCheckErrorLog]

theorem filter_isAggregate_instanceCalls (env : Env) (config : Config)
    (datacenterName entityName dataStoreID : String) (perfMetric : PerfMetric) (kv : String × Int) :
    (instanceCalls env config datacenterName entityName dataStoreID perfMetric kv).filter
      isAggregate = [] := by
  unfold instanceCalls instanceWrites
  by_cases h : env.createNewEntityWithMetricSet config (instanceEntityType env) entityName
      dataStoreID = true <;> simp [h, isAggregate]

theorem filter_isAggregate_perfMetricCalls (env : Env) (config : Config)
    (datacenterName entityName dataStoreID : String) (perfMetric : PerfMetric) :
    (perfMetricCalls env config datacenterName entityName dataStoreID perfMetric).filter isAggregate
      = [.setMetric .ms (env.perfMetricPrefix ++ perfMetric.Counter) (.int perfMetric.Value)
          .GAUGE] := by
  unfold perfMetricCalls
  by_cases h : config.ConsiderInstancesEnabled = true
  · simp only [h, if_true, List.filter_cons]
    simp [isAggregate, filter_flatMap_eq_nil _ _
      (filter_isAggregate_instanceCalls env config datacenterName entityName dataStoreID
        perfMetric)]
  · simp [h, isAggregate]

theorem filter_isAggregate_infoCalls (info : DatastoreInfo) :
    (infoCalls info).filter isAggregate = infoCalls info := by
  cases info with
  | NasDatastoreInfo nas => cases nas <;> simp [infoCalls, isAggregate]
  | other => simp [infoCalls]

theorem filter_isAggregate_tagCalls (env : Env) (l : List (String × String)) :
    (l.flatMap (tagCalls env)).filter isAggregate
      = l.map (fun kv => Event.setMetric .ms (env.tagsPrefix ++ kv.1) (.str kv.2) .ATTRIBUTE) := by
  induction l with
  | nil => rfl
  | cons kv l ih => simp [List.flatMap_cons, tagCalls, isAggregate, ih]

theorem filter_isAggregate_flatMap_perfMetricCalls (env : Env) (config : Config)
    (datacenterName entityName dataStoreID : String) (l : List PerfMetric) :
    (l.flatMap (perfMetricCalls env config datacenterName entityName dataStoreID)).filter
        isAggregate
      = l.map (fun pm =>
          Event.setMetric .ms (env.perfMetricPrefix ++ pm.Counter) (.int pm.Value) .GAUGE) := by
  induction l with
  | nil => rfl
  | cons pm l ih =>
    simp [List.flatMap_cons, filter_isAggregate_perfMetricCalls, ih]

theorem filter_isAggregate_datastoreWrites (env : Env) (config : Config) (dc : Datacenter)
    (ds : Datastore) :
    (datastoreWrites env config dc ds).filter isAggregate = aggregateWrites env config dc ds := by
  unfold datastoreWrites aggregateWrites
  by_cases h1 : (config.Args.DatacenterLocation != "") = true <;>
  by_cases h2 : config.IsVcenterAPIType = true <;>
  by_cases h3 : config.TagCollectionEnabled = true <;>
  by_cases h4 : config.PerfMetricsCollectionEnabled = true <;>
  simp [h1, h2, h3, h4, isAggregate, List.filter_cons, filter_isAggregate_infoCalls,
    filter_isAggregate_tagCalls, filter_isAggregate_flatMap_perfMetricCalls]

theorem filter_isAggregate_datastoreCalls (env : Env) (config : Config) (dc : Datacenter)
    (ds : Datastore) :
    (datastoreCalls env config dc ds).filter isAggregate
      = if included config ds then
          aggregateCreate env config dc ds ::
            (if aggregateFails env config dc ds then [] else aggregateWrites env config dc ds)
        else [] := by
  unfold datastoreCalls
  by_cases hi : included config ds = true
  · by_cases he : aggregateFails env config dc ds = true
    · simp [hi, he, aggregateCreate, isAggregate, List.filter_cons]
    · simp [hi, he, aggregateCreate, isAggregate, List.filter_cons,
        filter_isAggregate_datastoreWrites]
  · simp [hi]

theorem filter_isCreate_ims_instanceCalls (env : Env) (config : Config) (dc : Datacenter)
    (ds : Datastore) (perfMetric : PerfMetric) (kv : String × Int) :
    (instanceCalls env config dc.Name (env.sanitizeEntityName config ds.Summary.Name dc.Name)
        ds.Summary.Url perfMetric kv).filter (isCreate .ims)
      = [instanceCreate env config dc ds] := by
  unfold instanceCalls instanceWrites instanceCreate
  by_cases h : env.createNewEntityWithMetricSet config (instanceEntityType env)
      (env.sanitizeEntityName config ds.Summary.Name dc.Name) ds.Summary.Url = true <;>
    simp [h, isCreate]

theorem filter_isCreate_ims_flatMap_instanceCalls (env : Env) (config : Config) (dc : Datacenter)
    (ds : Datastore) (perfMetric : PerfMetric) (l : List (String × Int)) :
    (l.flatMap (instanceCalls env config dc.Name
        (env.sanitizeEntityName config ds.Summary.Name dc.Name) ds.Summary.Url perfMetric)).filter
        (isCreate .ims)
      = List.replicate l.length (instanceCreate env config dc ds) := by
  induction l with
  | nil => rfl
  | cons kv l ih =>
    rw [List.flatMap_cons, List.filter_append, ih, filter_isCreate_ims_instanceCalls]
    rfl

theorem filter_isCreate_ims_perfMetricCalls (env : Env) (config : Config) (dc : Datacenter)
    (ds : Datastore) (perfMetric : PerfMetric) :
    (perfMetricCalls env config dc.Name (env.sanitizeEntityName config ds.Summary.Name dc.Name)
        ds.Summary.Url perfMetric).filter (isCreate .ims)
      = if config.ConsiderInstancesEnabled then
          List.replicate perfMetric.InstanceValues.length (instanceCreate env config dc ds)
        else [] := by
  unfold perfMetricCalls
  by_cases h : config.ConsiderInstancesEnabled = true
  · simp only [h, if_true, List.filter_cons, filter_isCreate_ims_flatMap_instanceCalls]
    simp [isCreate]
  · simp [h, isCreate]

theorem filter_isCreate_ims_datastoreWrites (env : Env) (config : Config) (dc : Datacenter)
    (ds : Datastore) :
    (datastoreWrites env config dc ds).filter (isCreate .ims)
      = instanceCreations env config dc ds := by
  unfold datastoreWrites instanceCreations
  have hinfo : (infoCalls ds.Info).filter (isCreate .ims) = [] := by
    cases hI : ds.Info with
    | NasDatastoreInfo nas => cases nas <;> simp [infoCalls, isCreate]
    | other => simp [infoCalls]
  have htag : ((config.TagCollector.GetTagsByCategories ds.Self).flatMap (tagCalls env)).filter
      (isCreate .ims) = [] :=
    filter_flatMap_eq_nil _ _ (fun kv => by simp [tagCalls, isCreate]) _
  by_cases h1 : (config.Args.DatacenterLocation != "") = true <;>
  by_cases h2 : config.IsVcenterAPIType = true <;>
  by_cases h3 : config.TagCollectionEnabled = true <;>
  by_cases h4 : config.PerfMetricsCollectionEnabled = true <;>
  by_cases h5 : config.ConsiderInstancesEnabled = true <;>
  simp [h1, h2, h3, h4, h5, hinfo, htag, isCreate, List.filter_cons, List.filter_flatMap,
    filter_isCreate_ims_perfMetricCalls]

theorem filter_isCreate_ims_datastoreCalls (env : Env) (config : Config) (dc : Datacenter)
    (ds : Datastore) :
    (datastoreCalls env config dc ds).filter (isCreate .ims)
      = if created env config dc ds then instanceCreations env config dc ds else [] := by
  unfold datastoreCalls created
  by_cases hi : included config ds = true
  · by_cases he : aggregateFails env config dc ds = true
    · simp [hi, he, aggregateCreate, isCreate, List.filter_cons]
    · simp [hi, he, aggregateCreate, isCreate, List.filter_cons,
        filter_isCreate_ims_datastoreWrites]
  · simp [hi]

theorem flatMap_allDatastores {β : Type} (g : Datacenter → Datastore → List β)
    (dcs : List Datacenter) :
    dcs.flatMap (fun dc => dc.Datastores.flatMap (g dc))
      = (allDatastores dcs).flatMap (fun p => g p.1 p.2) := by
  unfold allDatastores
  induction dcs with
  | nil => rfl
  | cons dc dcs ih =>
    simp only [List.flatMap_cons, List.flatMap_append, ih]
    congr 1
    rw [List.flatMap_map]

theorem flatMap_ite_eq_filter_flatMap {α β : Type} (p : α → Bool) (f : α → List β)
    (l : List α) :
    l.flatMap (fun a => if p a then f a else []) = (l.filter p).flatMap f := by
  induction l with
  | nil => rfl
  | cons a l ih =>
    cases h : p a <;> simp [List.flatMap_cons, List.filter_cons, h, ih]

theorem filter_isCreate_ims_callsOver (env : Env) (config : Config) (dcs : List Datacenter) :
    (callsOver env config dcs).filter (isCreate .ims)
      = ((allDatastores dcs).filter (fun p => created env config p.1 p.2)).flatMap
          (fun p => instanceCreations env config p.1 p.2) := by
  unfold callsOver
  rw [flatMap_allDatastores, List.filter_flatMap]
  simp only [filter_isCreate_ims_datastoreCalls]
  exact flatMap_ite_eq_filter_flatMap
    (fun (p : Datacenter × Datastore) => created env config p.1 p.2)
    (fun (p : Datacenter × Datastore) => instanceCreations env config p.1 p.2) _

theorem filter_isAggregate_callsOver (env : Env) (config : Config) (dcs : List Datacenter) :
    (callsOver env config dcs).filter isAggregate
      = ((allDatastores dcs).filter (fun p => included config p.2)).flatMap
          (fun p => aggregateCreate env config p.1 p.2 ::
            (if aggregateFails env config p.1 p.2 then []
              else aggregateWrites env config p.1 p.2)) := by
  unfold callsOver
  rw [flatMap_allDatastores, List.filter_flatMap]
  simp only [filter_isAggregate_datastoreCalls]
  exact flatMap_ite_eq_filter_flatMap
    (fun (p : Datacenter × Datastore) => included config p.2)
    (fun (p : Datacenter × Datastore) => aggregateCreate env config p.1 p.2 ::
      (if aggregateFails env config p.1 p.2 then [] else aggregateWrites env config p.1 p.2)) _

theorem aggregateCreate_congr (env : Env) (c c' : Config)
    (hs : env.sanitizeEntityName c' = env.sanitizeEntityName c)
    (hc : env.createNewEntityWithMetricSet c' = env.createNewEntityWithMetricSet c)
    (dc : Datacenter) (ds : Datastore) :
    aggregateCreate env c' dc ds = aggregateCreate env c dc ds
    ∧ aggregateFails env c' dc ds = aggregateFails env c dc ds := by
  unfold aggregateCreate aggregateFails
  rw [hs, hc]
  exact ⟨rfl, rfl⟩

/-- C6. The aggregate entity does not depend on consider-instances.  For a
configuration and the one that differs from it in `Args.ConsiderInstances` only,
the creations of aggregate entities and the metric writes on the aggregate
metric sets are the same, in the same order, whatever `SetMetric` calls fail in
either run; they are, for each included datastore in input order, the creation
call followed (when it succeeds) by `aggregateWrites`, which ends with one gauge
`perfMetricPrefix+Counter = Value` per performance sample when performance
metrics are enabled; and with consider-instances false, or performance metrics
disabled, no instance entity is created.  The helpers that are not in the
source files and receive the configuration are assumed not to read
`Args.ConsiderInstances`. -/
theorem aggregate_independent_of_considerInstances (env : Env)
    (setMetricErr setMetricErr' : Nat → Bool) (config : Config) (considerInstances : Bool)
    (hsanitize : env.sanitizeEntityName (withConsiderInstances config considerInstances)
      = env.sanitizeEntityName config)
    (hcreate : env.createNewEntityWithMetricSet (withConsiderInstances config considerInstances)
      = env.createNewEntityWithMetricSet config) :
    (createDatastoreSamples env setMetricErr
        (withConsiderInstances config considerInstances)).filter isAggregate
      = (createDatastoreSamples env setMetricErr' config).filter isAggregate
    ∧ (createDatastoreSamples env setMetricErr' config).filter isAggregate
      = ((allDatastores config.Datacenters).filter
          (fun p => !config.TagFilteringEnabled || config.TagCollector.MatchObjectTags p.2.Self)).flatMap
          (fun p => aggregateCreate env config p.1 p.2 ::
            (if aggregateFails env config p.1 p.2 then []
              else aggregateWrites env config p.1 p.2))
    ∧ (∀ (dc : Datacenter) (ds : Datastore), ∃ before : List Event,
        aggregateWrites env config dc ds
          = before ++ (if config.Args.EnableVspherePerfMetrics then
              (dc.GetPerfMetrics ds.Self).map (fun pm =>
                Event.setMetric .ms (env.perfMetricPrefix ++ pm.Counter) (.int pm.Value) .GAUGE)
            else []))
    ∧ ((config.Args.ConsiderInstances = false ∨ config.Args.EnableVspherePerfMetrics = false) →
        (createDatastoreSamples env setMetricErr' config).filter (isCreate .ims) = []) := by
  have hagg : ∀ (o : Nat → Bool) (c : Config),
      (createDatastoreSamples env o c).filter isAggregate
        = ((allDatastores c.Datacenters).filter (fun p => included c p.2)).flatMap
            (fun p => aggregateCreate env c p.1 p.2 ::
              (if aggregateFails env c p.1 p.2 then [] else aggregateWrites env c p.1 p.2)) := by
    intro o c
    rw [← filter_isAggregate_noLog, noLog_createDatastoreSamples]
    exact filter_isAggregate_callsOver env c c.Datacenters
  refine ⟨?_, hagg setMetricErr' config, ?_, ?_⟩
  · rw [hagg, hagg]
    have hfun : (fun (p : Datacenter × Datastore) =>
          aggregateCreate env (withConsiderInstances config considerInstances) p.1 p.2 ::
            (if aggregateFails env (withConsiderInstances config considerInstances) p.1 p.2 then []
              else aggregateWrites env (withConsiderInstances config considerInstances) p.1 p.2))
        = (fun (p : Datacenter × Datastore) => aggregateCreate env config p.1 p.2 ::
            (if aggregateFails env config p.1 p.2 then []
              else aggregateWrites env config p.1 p.2)) := by
      funext p
      rw [(aggregateCreate_congr env config _ hsanitize hcreate p.1 p.2).1,
        (aggregateCreate_congr env config _ hsanitize hcreate p.1 p.2).2]
      rfl
    rw [hfun]
    rfl
  · intro dc ds
    exact ⟨_, rfl⟩
  · intro hoff
    rw [← filter_isCreate_ims_noLog, noLog_createDatastoreSamples, expectedCalls,
      filter_isCreate_ims_callsOver]
    apply List.flatMap_eq_nil_iff.2
    intro p _
    unfold instanceCreations Config.PerfMetricsCollectionEnabled Config.ConsiderInstancesEnabled
    rcases hoff with h | h <;> simp [h]

/-- C6, at the example: switching consider-instances off leaves the aggregate
part of the run as it is and removes every instance creation. -/
theorem aggregate_independent_of_considerInstances_witness :
    (createDatastoreSamples exampleEnv (fun _ => false)
        (withConsiderInstances instancesConfig false)).filter isAggregate
      = (createDatastoreSamples exampleEnv (fun _ => true) instancesConfig).filter isAggregate
    ∧ (createDatastoreSamples exampleEnv (fun _ => true)
        (withConsiderInstances instancesConfig false)).filter (isCreate .ims) = []
    ∧ ((createDatastoreSamples exampleEnv (fun _ => true) instancesConfig).filter
        (isCreate .ims)).length = 2 :=
  ⟨(aggregate_independent_of_considerInstances exampleEnv (fun _ => false) (fun _ => true)
      instancesConfig false rfl rfl).1,
   (aggregate_independent_of_considerInstances exampleEnv (fun _ => false) (fun _ => true)
      (withConsiderInstances instancesConfig false) false rfl rfl).2.2.2 (Or.inl rfl),
   by decide⟩

/-- C7, as stated, fails: in the example the sample of datastore `A` has the
two instance keys `lun1` and `lun2`, and the two instance creation calls carry
the same (kind, stable id) key, so they are not pairwise distinct. -/
theorem instance_creations_share_one_key :
    exampleSample.InstanceValues.map Prod.fst = ["lun1", "lun2"]
    ∧ ((createDatastoreSamples exampleEnv (fun _ => false) instancesConfig).filter
        (isCreate .ims)).length = 2
    ∧ ¬ (((createDatastoreSamples exampleEnv (fun _ => false) instancesConfig).filter
        (isCreate .ims)).map entityKey).Nodup := by
  decide

/-- C7, amended. The instance creation calls of a run are, for each datastore
with an aggregate entity, in input order: `k` calls for each performance sample
whose instance map has `k` entries (when performance metrics and
consider-instances are enabled), all of them the same call `instanceCreate`,
whose key is the instance kind with the stable id `ds.Summary.Url` of the
datastore: the instance key is not part of the entity identity.  That key
differs from the key of the aggregate entity when the two kinds differ.  In
the example (aggregate 42, instances `lun1: 10` and `lun2: 32`) the gauge is
written with 42 on the aggregate metric set and with 10 and 32 on two instance
metric sets, whose two creation calls have one and the same key. -/
theorem instance_creations_per_entry (env : Env) (setMetricErr : Nat → Bool) (config : Config) :
    (createDatastoreSamples env setMetricErr config).filter (isCreate .ims)
      = ((allDatastores config.Datacenters).filter
          (fun p => (!config.TagFilteringEnabled || config.TagCollector.MatchObjectTags p.2.Self)
            && !env.createNewEntityWithMetricSet config env.entityTypeDatastore
                (env.sanitizeEntityName config p.2.Summary.Name p.1.Name) p.2.Summary.Url)).flatMap
          (fun p =>
            if config.Args.EnableVspherePerfMetrics && config.Args.ConsiderInstances then
              (p.1.GetPerfMetrics p.2.Self).flatMap
                (fun pm => List.replicate pm.InstanceValues.length
                  (instanceCreate env config p.1 p.2))
            else [])
    ∧ (∀ (dc : Datacenter) (ds : Datastore),
        entityKey (instanceCreate env config dc ds) = some (instanceEntityType env, ds.Summary.Url)
        ∧ (instanceEntityType env ≠ env.entityTypeDatastore →
            entityKey (instanceCreate env config dc ds)
              ≠ entityKey (aggregateCreate env config dc ds)))
    ∧ (createDatastoreSamples exampleEnv (fun _ => false) instancesConfig).filter
          (isWriteOf "perf.disk.used.latest")
        = [.setMetric .ms "perf.disk.used.latest" (.int 42) .GAUGE,
           .setMetric .ims "perf.disk.used.latest" (.int 10) .GAUGE,
           .setMetric .ims "perf.disk.used.latest" (.int 32) .GAUGE]
    ∧ (((createDatastoreSamples exampleEnv (fun _ => false) instancesConfig).filter
          (isCreate .ims)).map entityKey).dedup.length = 1 := by
  refine ⟨?_, ?_, by decide, by decide⟩
  · rw [← filter_isCreate_ims_noLog, noLog_createDatastoreSamples, expectedCalls,
      filter_isCreate_ims_callsOver]
    rfl
  · intro dc ds
    refine ⟨rfl, ?_⟩
    intro hne h
    unfold instanceCreate aggregateCreate entityKey at h
    simp only [Option.some.injEq, Prod.mk.injEq] at h
    exact hne h.1

/-- C7, amended, at the example: the kinds `"hostInstance"` and `"datastore"`
differ, so the key of the instance creations of `A` is not the key of its
aggregate entity. -/
theorem instance_creations_per_entry_witness :
    entityKey (instanceCreate exampleEnv instancesConfig exampleDatacenter datastoreA)
      ≠ entityKey (aggregateCreate exampleEnv instancesConfig exampleDatacenter datastoreA) :=
  ((instance_creations_per_entry exampleEnv (fun _ => false) instancesConfig).2.1
    exampleDatacenter datastoreA).2 (by decide)

/-- C8: the code at the example.  The kind of the datastore entities is
`"datastore"`, so the kind of an instance of a datastore should be
`"datastoreInstance"`; line 83 passes `entityTypeHost+"Instance"`, here
`"hostInstance"`. -/
theorem datastore_instance_kind_is_host_instance :
    ((createDatastoreSamples exampleEnv (fun _ => false) instancesConfig).filter
        (isCreate .ms)).map typeEntityOf
      = [some "datastore", some "datastore", some "datastore"]
    ∧ ((createDatastoreSamples exampleEnv (fun _ => false) instancesConfig).filter
        (isCreate .ims)).map typeEntityOf
      = [some "hostInstance", some "hostInstance"]
    ∧ exampleEnv.entityTypeDatastore ++ "Instance" = "datastoreInstance"
    ∧ instanceEntityType exampleEnv ≠ exampleEnv.entityTypeDatastore ++ "Instance" := by
  decide

/-! ### Lemmas: the block of one instance inside the calls of a run -/

theorem startsWithoutInstanceWrite_nil : StartsWithoutInstanceWrite [] := by
  intro e h
  simp at h

theorem startsWithoutInstanceWrite_cons (e : Event) (l : List Event)
    (h : isInstanceWrite e = false) : StartsWithoutInstanceWrite (e :: l) := by
  intro e' he
  simp only [List.head?_cons, Option.some.injEq] at he
  rw [← he]
  exact h

theorem startsWithoutInstanceWrite_append (l₁ l₂ : List Event)
    (h₁ : StartsWithoutInstanceWrite l₁) (h₂ : StartsWithoutInstanceWrite l₂) :
    StartsWithoutInstanceWrite (l₁ ++ l₂) := by
  cases l₁ with
  | nil => simpa using h₂
  | cons e l => exact fun e' he => h₁ e' (by simpa using he)

theorem startsWithoutInstanceWrite_flatMap {α : Type} (f : α → List Event)
    (h : ∀ a, StartsWithoutInstanceWrite (f a)) (l : List α) :
    StartsWithoutInstanceWrite (l.flatMap f) := by
  induction l with
  | nil => exact startsWithoutInstanceWrite_nil
  | cons a l ih =>
    rw [List.flatMap_cons]
    exact startsWithoutInstanceWrite_append _ _ (h a) ih

theorem hasBlock_self (block : List Event) : HasBlock block block :=
  ⟨[], [], by simp, startsWithoutInstanceWrite_nil⟩

theorem hasBlock_append_right (block l₁ l₂ : List Event) (h : HasBlock block l₂) :
    HasBlock block (l₁ ++ l₂) := by
  obtain ⟨pre, post, hl, hpost⟩ := h
  exact ⟨l₁ ++ pre, post, by rw [hl]; simp [List.append_assoc], hpost⟩

theorem hasBlock_cons (block : List Event) (e : Event) (l : List Event) (h : HasBlock block l) :
    HasBlock block (e :: l) :=
  hasBlock_append_right block [e] l h

theorem hasBlock_append_left (block l₁ l₂ : List Event) (h : HasBlock block l₁)
    (h₂ : StartsWithoutInstanceWrite l₂) : HasBlock block (l₁ ++ l₂) := by
  obtain ⟨pre, post, hl, hpost⟩ := h
  exact ⟨pre, post ++ l₂, by rw [hl]; simp [List.append_assoc],
    startsWithoutInstanceWrite_append _ _ hpost h₂⟩

theorem hasBlock_flatMap {α : Type} (block : List Event) (f : α → List Event)
    (hf : ∀ a, StartsWithoutInstanceWrite (f a)) (l : List α) (a : α) (ha : a ∈ l)
    (h : HasBlock block (f a)) : HasBlock block (l.flatMap f) := by
  obtain ⟨l₁, l₂, hl⟩ := List.append_of_mem ha
  rw [hl, List.flatMap_append, List.flatMap_cons]
  exact hasBlock_append_right _ _ _
    (hasBlock_append_left _ _ _ h (startsWithoutInstanceWrite_flatMap f hf l₂))

theorem startsWithoutInstanceWrite_instanceCalls (env : Env) (config : Config)
    (datacenterName entityName dataStoreID : String) (perfMetric : PerfMetric) (kv : String × Int) :
    StartsWithoutInstanceWrite
      (instanceCalls env config datacenterName entityName dataStoreID perfMetric kv) := by
  unfold instanceCalls
  by_cases h : env.createNewEntityWithMetricSet config (instanceEntityType env) entityName
      dataStoreID = true
  · simp only [h, if_true]
    exact startsWithoutInstanceWrite_cons _ _ rfl
  · simp only [h]
    exact startsWithoutInstanceWrite_cons _ _ rfl

theorem startsWithoutInstanceWrite_perfMetricCalls (env : Env) (config : Config)
    (datacenterName entityName dataStoreID : String) (perfMetric : PerfMetric) :
    StartsWithoutInstanceWrite
      (perfMetricCalls env config datacenterName entityName dataStoreID perfMetric) :=
  startsWithoutInstanceWrite_cons _ _ rfl

theorem startsWithoutInstanceWrite_datastoreCalls (env : Env) (config : Config) (dc : Datacenter)
    (ds : Datastore) : StartsWithoutInstanceWrite (datastoreCalls env config dc ds) := by
  unfold datastoreCalls
  by_cases hi : included config ds = true
  · simp only [hi, if_true]
    exact startsWithoutInstanceWrite_cons _ _ rfl
  · simp only [hi]
    exact startsWithoutInstanceWrite_nil

/-- C9. The metric set of an instance carries the context of its datastore and
the data of the instance, and nothing else.  For a datastore `ds` of a
datacenter `dc` of the configuration that passes the tag filter and whose
aggregate entity is created, with performance metrics and consider-instances
enabled, for a sample `pm` of `dc.GetPerfMetrics(ds.Self)` and an entry
`(key, val)` of its instance map whose creation call succeeds: the calls of the
run (the trace without the log lines of `checkError`) contain, in one block, the
successful creation call bound to `ims` followed by exactly five writes on
`ims`: `dataStoreID = ds.Summary.Url`, `datacenterLocation =
Args.DatacenterLocation`, `datacenterName = dc.Name`, `instanceName = key` and
the gauge `perfMetricPrefix+Counter = val`; what comes after the block does not
start with a write on `ims`, so there is no sixth write on this metric set. -/
theorem instance_metric_set_contents (env : Env) (setMetricErr : Nat → Bool) (config : Config)
    (dc : Datacenter) (ds : Datastore) (pm : PerfMetric) (key : String) (val : Int)
    (hdc : dc ∈ config.Datacenters) (hds : ds ∈ dc.Datastores)
    (hincluded : (!config.TagFilteringEnabled || config.TagCollector.MatchObjectTags ds.Self)
      = true)
    (haggregate : env.createNewEntityWithMetricSet config env.entityTypeDatastore
      (env.sanitizeEntityName config ds.Summary.Name dc.Name) ds.Summary.Url = false)
    (hperf : config.Args.EnableVspherePerfMetrics = true)
    (hinstances : config.Args.ConsiderInstances = true)
    (hpm : pm ∈ dc.GetPerfMetrics ds.Self) (hkv : (key, val) ∈ pm.InstanceValues)
    (hcreated : env.createNewEntityWithMetricSet config (instanceEntityType env)
      (env.sanitizeEntityName config ds.Summary.Name dc.Name) ds.Summary.Url = false) :
    ∃ pre post : List Event,
      (createDatastoreSamples env setMetricErr config).filter (fun e => !isCheckErrorLog e)
        = pre ++
          [.createNewEntityWithMetricSet .ims (instanceEntityType env)
              (env.sanitizeEntityName config ds.Summary.Name dc.Name) ds.Summary.Url false,
           .setMetric .ims "dataStoreID" (.str ds.Summary.Url) .ATTRIBUTE,
           .setMetric .ims "datacenterLocation" (.str config.Args.DatacenterLocation) .ATTRIBUTE,
           .setMetric .ims "datacenterName" (.str dc.Name) .ATTRIBUTE,
           .setMetric .ims "instanceName" (.str key) .ATTRIBUTE,
           .setMetric .ims (env.perfMetricPrefix ++ pm.Counter) (.int val) .GAUGE] ++ post
      ∧ ∀ e, post.head? = some e → isInstanceWrite e = false := by
  show HasBlock _ (noLog (createDatastoreSamples env setMetricErr config))
  rw [noLog_createDatastoreSamples]
  unfold expectedCalls callsOver
  refine hasBlock_flatMap _ _
    (fun dc => startsWithoutInstanceWrite_flatMap _
      (startsWithoutInstanceWrite_datastoreCalls env config dc) _) _ dc hdc ?_
  refine hasBlock_flatMap _ _ (startsWithoutInstanceWrite_datastoreCalls env config dc) _ ds hds ?_
  have hi : included config ds = true := hincluded
  have hf : aggregateFails env config dc ds = false := haggregate
  have hp : config.PerfMetricsCollectionEnabled = true := hperf
  have hc : config.ConsiderInstancesEnabled = true := hinstances
  unfold datastoreCalls
  simp only [hi, hf, if_true, Bool.false_eq_true, if_false]
  refine hasBlock_cons _ _ _ ?_
  unfold datastoreWrites
  simp only [hp, if_true]
  refine hasBlock_append_right _ _ _ (hasBlock_cons _ _ _ ?_)
  refine hasBlock_flatMap _ _ (startsWithoutInstanceWrite_perfMetricCalls env config _ _ _) _ pm
    hpm ?_
  unfold perfMetricCalls
  simp only [hc, if_true]
  refine hasBlock_cons _ _ _ ?_
  refine hasBlock_flatMap _ _ (startsWithoutInstanceWrite_instanceCalls env config _ _ _ pm) _
    (key, val) hkv ?_
  unfold instanceCalls instanceWrites
  simp only [hcreated, Bool.false_eq_true, if_false]
  exact hasBlock_self _

/-- C9, at the example: the metric set of instance `lun2` of datastore `A`. -/
theorem instance_metric_set_contents_witness :
    ∃ pre post : List Event,
      (createDatastoreSamples exampleEnv (fun _ => false) instancesConfig).filter
          (fun e => !isCheckErrorLog e)
        = pre ++
          [.createNewEntityWithMetricSet .ims "hostInstance" "dc1:A" "ds:///a" false,
           .setMetric .ims "dataStoreID" (.str "ds:///a") .ATTRIBUTE,
           .setMetric .ims "datacenterLocation" (.str "") .ATTRIBUTE,
           .setMetric .ims "datacenterName" (.str "dc1") .ATTRIBUTE,
           .setMetric .ims "instanceName" (.str "lun2") .ATTRIBUTE,
           .setMetric .ims "perf.disk.used.latest" (.int 32) .GAUGE] ++ post
      ∧ ∀ e, post.head? = some e → isInstanceWrite e = false :=
  instance_metric_set_contents exampleEnv (fun _ => false) instancesConfig exampleDatacenter
    datastoreA exampleSample "lun2" 32 (List.mem_cons_self _ _) (List.mem_cons_self _ _)
    (by decide) (by decide) rfl rfl (by decide) (by decide) (by decide)

/-! ### Lemmas: chunks -/

theorem chunksAux_hom {α β : Type} (k : List α → List β) (hnil : k [] = [])
    (happ : ∀ a b, k (a ++ b) = k a ++ k b) (size : Nat) (hsize : 1 ≤ size) :
    ∀ (fuel : Nat) (l : List α), l.length ≤ fuel → (chunksAux size fuel l).flatMap k = k l := by
  intro fuel
  induction fuel with
  | zero =>
    intro l hl
    have : l = [] := List.length_eq_zero.1 (Nat.le_zero.1 hl)
    subst this
    simp [chunksAux, hnil]
  | succ fuel ih =>
    intro l hl
    cases l with
    | nil => simp [chunksAux, hnil]
    | cons a l =>
      have hdrop : ((a :: l).drop size).length ≤ fuel := by
        rw [List.length_drop]
        simp only [List.length_cons] at hl ⊢
        omega
      simp only [chunksAux, List.flatMap_cons]
      rw [ih _ hdrop, ← happ, List.take_append_drop]

theorem chunksAux_length {α : Type} (size : Nat) (hsize : 1 ≤ size) :
    ∀ (fuel : Nat) (l : List α), l.length ≤ fuel →
      (chunksAux size fuel l).length = ceilDiv l.length size := by
  intro fuel
  induction fuel with
  | zero =>
    intro l hl
    have : l = [] := List.length_eq_zero.1 (Nat.le_zero.1 hl)
    subst this
    simp only [chunksAux, List.length_nil, ceilDiv]
    exact (Nat.div_eq_of_lt (by omega)).symm
  | succ fuel ih =>
    intro l hl
    cases l with
    | nil =>
      simp only [chunksAux, List.length_nil, ceilDiv]
      exact (Nat.div_eq_of_lt (by omega)).symm
    | cons a l =>
      have hdrop : ((a :: l).drop size).length ≤ fuel := by
        rw [List.length_drop]
        simp only [List.length_cons] at hl ⊢
        omega
      simp only [chunksAux, List.length_cons]
      rw [ih _ hdrop, List.length_drop, List.length_cons]
      unfold ceilDiv
      by_cases hlt : l.length + 1 ≤ size
      · have h0 : l.length + 1 - size = 0 := by omega
        rw [h0]
        have h1 : (0 + size - 1) / size = 0 := Nat.div_eq_of_lt (by omega)
        have h2 : (l.length + 1 + size - 1) / size = 1 := by
          apply Nat.div_eq_of_lt_le <;> omega
        rw [h1, h2]
      · have h3 : l.length + 1 + size - 1 = (l.length + 1 - size + size - 1) + size := by omega
        rw [h3, Nat.add_div_right _ (by omega)]

theorem chunksAux_bound {α : Type} (size : Nat) :
    ∀ (fuel : Nat) (l : List α), ∀ c ∈ chunksAux size fuel l, c.length ≤ size := by
  intro fuel
  induction fuel with
  | zero => intro l c hc; simp [chunksAux] at hc
  | succ fuel ih =>
    intro l c hc
    cases l with
    | nil => simp [chunksAux] at hc
    | cons a l =>
      simp only [chunksAux, List.mem_cons] at hc
      rcases hc with h | h
      · rw [h, List.length_take]
        exact Nat.min_le_left _ _
      · exact ih _ c h

theorem flatMap_comm_perm {α β γ : Type} (l₁ : List α) (l₂ : List β) (f : α → β → List γ) :
    (l₁.flatMap (fun a => l₂.flatMap (fun b => f a b))).Perm
      (l₂.flatMap (fun b => l₁.flatMap (fun a => f a b))) := by
  induction l₁ with
  | nil => simp
  | cons a l₁ ih =>
    simp only [List.flatMap_cons]
    exact (List.Perm.append_left _ ih).trans (List.flatMap_append_perm l₂ _ _)

theorem flatMap_chunks {α β : Type} (k : List α → List β) (hnil : k [] = [])
    (happ : ∀ a b, k (a ++ b) = k a ++ k b) (size : Nat) (hsize : 1 ≤ size) (l : List α) :
    (chunks size l).flatMap k = k l :=
  chunksAux_hom k hnil happ size hsize l.length l (Nat.le_refl _)

theorem runQuery_chunks_counters (service : Ref → String → Option PerfMetric) (n : Nat)
    (hn : 1 ≤ n) (os : List Ref) (counters : List String) :
    ((chunks n counters).flatMap (fun cs => runQuery service (os, cs))).Perm
      (runQuery service (os, counters)) := by
  unfold runQuery
  refine (flatMap_comm_perm (chunks n counters) os
    (fun cs o => cs.filterMap (fun c => (service o c).map (fun s => ((o, c), s))))).trans ?_
  apply List.Perm.of_eq
  apply List.flatMap_congr
  intro o _
  exact flatMap_chunks
    (fun cs => cs.filterMap (fun c => (service o c).map (fun s => ((o, c), s))))
    rfl (fun a b => List.filterMap_append a b _) n hn counters

theorem getMetrics_perm (service : Ref → String → Option PerfMetric) (m n : Nat)
    (hm : 1 ≤ m) (hn : 1 ≤ n) (objects : List Ref) (counters : List String) :
    (getMetrics service m n objects counters).Perm (runQuery service (objects, counters)) := by
  unfold getMetrics batchQueries
  rw [List.flatMap_assoc]
  simp only [List.flatMap_map]
  refine (List.Perm.flatMap_left _
    (fun os _ => runQuery_chunks_counters service n hn os counters)).trans ?_
  apply List.Perm.of_eq
  exact flatMap_chunks (fun os => runQuery service (os, counters)) rfl
    (fun a b => by simp [runQuery]) m hm objects

theorem map_fst_filterMap_service (service : Ref → String → Option PerfMetric) (o : Ref)
    (counters : List String) :
    (counters.filterMap (fun c => (service o c).map (fun s => ((o, c), s)))).map Prod.fst
      = ((counters.map (fun c => (o, c))).filter (fun p => (service p.1 p.2).isSome)) := by
  induction counters with
  | nil => rfl
  | cons c counters ihc =>
    cases h : service o c <;>
      simp [List.filterMap_cons, List.filter_cons, h, ihc]

theorem map_fst_runQuery (service : Ref → String → Option PerfMetric) (objects : List Ref)
    (counters : List String) :
    (runQuery service (objects, counters)).map Prod.fst
      = (objects ×ˢ counters).filter (fun p => (service p.1 p.2).isSome) := by
  unfold runQuery
  induction objects with
  | nil => rfl
  | cons o objects ih =>
    simp only [List.flatMap_cons, List.map_append, ih, List.product_cons, List.filter_append,
      map_fst_filterMap_service]

theorem length_batchQueries (m n : Nat) (objects : List Ref) (counters : List String) :
    (batchQueries m n objects counters).length
      = (chunks m objects).length * (chunks n counters).length := by
  unfold batchQueries
  induction chunks m objects with
  | nil => simp
  | cons os l ih => simp [List.flatMap_cons, ih, Nat.succ_mul, Nat.add_comm]

/-- C10. The batcher of the spec: for batch sizes `m, n ≥ 1`, `E` objects and `C`
counters it issues `⌈E/m⌉ * ⌈C/n⌉` queries, none over `m` objects or `n`
counters; the merged table has the entries of the one unbounded query, each as
often (a permutation), so its keys are the requested (object, counter) pairs
for which the service has a sample, without omission, and without duplicate
when the requested objects and counters are without duplicate; it has at most
`E * C` entries. -/
theorem batcher_queries_and_coverage (service : Ref → String → Option PerfMetric) (m n : Nat)
    (objects : List Ref) (counters : List String) (hm : 1 ≤ m) (hn : 1 ≤ n) :
    (batchQueries m n objects counters).length
      = ceilDiv objects.length m * ceilDiv counters.length n
    ∧ (∀ q ∈ batchQueries m n objects counters, q.1.length ≤ m ∧ q.2.length ≤ n)
    ∧ (getMetrics service m n objects counters).Perm (runQuery service (objects, counters))
    ∧ ((getMetrics service m n objects counters).map Prod.fst).Perm
        ((objects ×ˢ counters).filter (fun p => (service p.1 p.2).isSome))
    ∧ (objects.Nodup → counters.Nodup →
        ((getMetrics service m n objects counters).map Prod.fst).Nodup)
    ∧ (getMetrics service m n objects counters).length ≤ objects.length * counters.length := by
  have hperm := getMetrics_perm service m n hm hn objects counters
  have hkeys : ((getMetrics service m n objects counters).map Prod.fst).Perm
      ((objects ×ˢ counters).filter (fun p => (service p.1 p.2).isSome)) := by
    rw [← map_fst_runQuery]
    exact hperm.map _
  refine ⟨?_, ?_, hperm, hkeys, ?_, ?_⟩
  · rw [length_batchQueries]
    unfold chunks
    rw [chunksAux_length m hm _ _ (Nat.le_refl _), chunksAux_length n hn _ _ (Nat.le_refl _)]
  · intro q hq
    unfold batchQueries at hq
    rw [List.mem_flatMap] at hq
    obtain ⟨os, hos, hq⟩ := hq
    rw [List.mem_map] at hq
    obtain ⟨cs, hcs, rfl⟩ := hq
    exact ⟨chunksAux_bound m _ _ os hos, chunksAux_bound n _ _ cs hcs⟩
  · intro ho hc
    exact hkeys.nodup_iff.2 ((ho.product hc).filter _)
  · have hlen := hkeys.length_eq
    rw [List.length_map] at hlen
    rw [hlen, ← List.length_product]
    exact List.length_filter_le _ _

/-- C10, at the example of the spec: objects `[A,B,C,D,E]`, counters `[c1,c2,c3]`,
`m = 2`, `n = 2`: six queries, and a table of at most 15 entries (here 14: the
service has no sample for `(C, c2)`). -/
theorem batcher_queries_and_coverage_witness :
    (batchQueries 2 2 exampleObjects exampleCounters).length = 6
    ∧ (getMetrics exampleService 2 2 exampleObjects exampleCounters).length ≤ 15
    ∧ (getMetrics exampleService 2 2 exampleObjects exampleCounters).length = 14
    ∧ ((getMetrics exampleService 2 2 exampleObjects exampleCounters).map Prod.fst).Nodup :=
  ⟨(batcher_queries_and_coverage exampleService 2 2 exampleObjects exampleCounters
      (by decide) (by decide)).1,
   (batcher_queries_and_coverage exampleService 2 2 exampleObjects exampleCounters
      (by decide) (by decide)).2.2.2.2.2,
   by decide,
   (batcher_queries_and_coverage exampleService 2 2 exampleObjects exampleCounters
      (by decide) (by decide)).2.2.2.2.1 (by decide) (by decide)⟩

end NriVsphere
